import Mathlib

/-!
Verification development for the EC2 CPI extension (`src/lib.rs` of the
repository). The Rust module is a cloud-provider adapter: a catalog of
worker / volume / snapshot lifecycle actions, each dispatched by
`execute_action` to an async method that validates parameters, performs one
AWS SDK call through a lazily memoized client, and normalizes the response
into JSON.

The embedding below is a shallow translation of that module. The AWS SDK
itself is modelled by an `Oracle`: a record of response functions, one per
SDK operation used by the module, together with the client builder and the
tokio runtime constructor. Every action method returns, besides its
`ActionResult`, the post-state of the (cloned) extension and the trace of
SDK requests it issued, so that claims about state framing and about which
requests are sent can be stated directly. SDK errors are modelled by the
string of their Rust `Debug` formatting, which is all the module ever
inspects. 32-bit machine arithmetic (`as i32` casts, `i32` multiplication)
is modelled by explicit reduction into the two's-complement range.
-/

namespace CPIEc2

/-- serde_json values, restricted to the shapes this module constructs and
inspects (numbers that occur here are integers). Objects are kept as field
lists in construction order. -/
inductive Value where
  | null : Value
  | bool (b : Bool) : Value
  | num (n : Int) : Value
  | str (s : String) : Value
  | arr (xs : List Value) : Value
  | obj (fields : List (String × Value)) : Value

/-- `serde_json::Value::get` on an object key (returns None on non-objects). -/
def Value.get (v : Value) (k : String) : Option Value :=
  match v with
  | .obj fields => fields.lookup k
  | _ => none

/-- The `HashMap<String, Value>` parameter map of `execute_action`,
as an association list (keys are unique in the Rust map; only lookups
are performed). -/
abbrev Params := List (String × Value)

/-- An optional string rendered into JSON (`Option<&str>` / `Option<String>`
fields serialize to null or a string). -/
def optStr : Option String → Value
  | none => Value.null
  | some s => Value.str s

/-- Does `p` start the character list `l`? -/
def charsStartWith : List Char → List Char → Bool
  | _, [] => true
  | [], _ :: _ => false
  | c :: cs, p :: ps => c = p && charsStartWith cs ps

/-- Does `p` occur as a contiguous sublist of `l`? -/
def charsContain (p : List Char) : List Char → Bool
  | [] => charsStartWith [] p
  | c :: cs => charsStartWith (c :: cs) p || charsContain p cs

/-- `str::contains` of Rust with a string pattern, used on
`format!("{:?}", err)` bodies: true iff `pat` occurs as a substring of
`s`. -/
def strContains (s pat : String) : Bool :=
  charsContain pat.data s.data

/-- Reduction of an integer into the 32-bit two's-complement range, the
value semantics of Rust `as i32` casts and of wrapping `i32` arithmetic. -/
def i32wrap (n : Int) : Int :=
  (n + 2 ^ 31) % 2 ^ 32 - 2 ^ 31

/-! ### Model of the AWS SDK data types used by the module -/

/-- `aws_sdk_ec2::types::Tag`: builder-made tags may lack key or value. -/
structure Tag where
  key : Option String
  value : Option String
deriving DecidableEq

/-- `aws_sdk_ec2::types::ResourceType` (only the two variants used). -/
inductive ResourceType where
  | Instance : ResourceType
  | Snapshot : ResourceType
deriving DecidableEq

/-- `aws_sdk_ec2::types::TagSpecification`. -/
structure TagSpecification where
  resource_type : ResourceType
  tags : List Tag
deriving DecidableEq

/-- The state object of an instance; `name()` yields an optional enum whose
`as_str` we model as the string itself. -/
structure InstanceState where
  name : Option String

/-- `Placement`, of which only `availability_zone` is read. -/
structure Placement where
  availability_zone : Option String

/-- `aws_sdk_ec2::types::Instance`, restricted to the fields the module reads. -/
structure Instance where
  instance_id : Option String
  state : Option InstanceState
  instance_type : Option String
  public_ip_address : Option String
  private_ip_address : Option String
  tags : List Tag
  placement : Option Placement

/-- A reservation groups instances in `DescribeInstancesOutput`. -/
structure Reservation where
  instances : List Instance

/-- `DescribeInstancesOutput`. -/
structure DescribeInstancesOutput where
  reservations : List Reservation

/-- A volume attachment; only `instance_id` is read. -/
structure Attachment where
  instance_id : Option String

/-- `aws_sdk_ec2::types::Volume`, restricted to the fields the module reads.
`size` is an `i32` in the SDK, so its values lie in the 32-bit range. -/
structure Volume where
  volume_id : Option String
  size : Option Int
  state : Option String
  availability_zone : Option String
  attachments : List Attachment

/-- `DescribeVolumesOutput`. -/
structure DescribeVolumesOutput where
  volumes : List Volume

/-- `RunInstancesOutput`; only the created instances are read. -/
structure RunInstancesOutput where
  instances : List Instance

/-- `CreateVolumeOutput`; only `volume_id` is read. -/
structure CreateVolumeOutput where
  volume_id : Option String

/-- `CreateSnapshotOutput`; only `snapshot_id` is read. -/
structure CreateSnapshotOutput where
  snapshot_id : Option String

/-- A snapshot record; `has_snapshot` only tests for presence. -/
structure Snapshot where
  snapshot_id : Option String

/-- `DescribeSnapshotsOutput`. -/
structure DescribeSnapshotsOutput where
  snapshots : List Snapshot

/-- `aws_sdk_ec2::types::InstanceType`, restricted to the eight variants the
module can produce (`create_worker` maps every other string to `T2Micro`). -/
inductive InstanceType where
  | t2micro | t2small | t2medium
  | t3micro | t3small | t3medium
  | m5large | m5xlarge
deriving DecidableEq

/-- The `RunInstances` request built by `create_worker`. -/
structure RunInstancesReq where
  image_id : String
  instance_type : InstanceType
  min_count : Int
  max_count : Int
  tag_specifications : List TagSpecification
deriving DecidableEq

/-- The `CreateVolume` request built by `create_volume`. The SDK `size`
field is an `i32`; the module casts its `i64` argument with `as i32`.
`volume_type` is the string converted `.into()` the SDK enum, which keeps
unknown strings, so it is modelled by the string itself. -/
structure CreateVolumeReq where
  availability_zone : String
  size : Int
  volume_type : String
deriving DecidableEq

/-- The `AttachVolume` request built by `attach_volume`. -/
structure AttachVolumeReq where
  instance_id : String
  volume_id : String
  device : String
deriving DecidableEq

/-- The `CreateSnapshot` request built by `create_snapshot`. -/
structure CreateSnapshotReq where
  volume_id : String
  description : String
  tag_specifications : List TagSpecification
deriving DecidableEq

/-- One SDK request as sent by the module: the operation and the data the
module put into it. Traces of these are what the action methods emit. -/
inductive SdkRequest where
  | describeInstances (instance_ids : List String)
  | runInstances (req : RunInstancesReq)
  | terminateInstances (instance_ids : List String)
  | startInstances (instance_ids : List String)
  | describeVolumes (volume_ids : List String)
  | createVolume (req : CreateVolumeReq)
  | deleteVolume (volume_id : String)
  | attachVolume (req : AttachVolumeReq)
  | detachVolume (volume_id : String)
  | createSnapshot (req : CreateSnapshotReq)
  | deleteSnapshot (snapshot_id : String)
  | describeSnapshots (snapshot_ids : List String)
  | rebootInstances (instance_ids : List String)
  | createTags (resources : List String) (tags : List Tag)
deriving DecidableEq

/-- An EC2 client handle. Cloning an SDK client shares the same underlying
handle, so a clone is the handle itself. -/
abbrev Client := Nat

/-- The ambient environment of one `execute_action` call: the tokio runtime
constructor, the client builder (`aws_config` resolution for a requested
region string), the result of each SDK operation the module may invoke, and
the inherited `test_install` entry point. SDK errors are represented by
their `Debug` formatting. -/
structure Oracle where
  runtime_build : Except String Unit
  build_client : String → Client
  test_install : Except String Value
  describe_instances : List String → Except String DescribeInstancesOutput
  run_instances : RunInstancesReq → Except String RunInstancesOutput
  terminate_instances : List String → Except String Unit
  start_instances : List String → Except String Unit
  describe_volumes : List String → Except String DescribeVolumesOutput
  create_volume : CreateVolumeReq → Except String CreateVolumeOutput
  delete_volume : String → Except String Unit
  attach_volume : AttachVolumeReq → Except String Unit
  detach_volume : String → Except String Unit
  create_snapshot : CreateSnapshotReq → Except String CreateSnapshotOutput
  delete_snapshot : String → Except String Unit
  describe_snapshots : List String → Except String DescribeSnapshotsOutput
  reboot_instances : List String → Except String Unit
  create_tags : List String → List Tag → Except String Unit

/-- The extension struct `AwsExtension`. -/
structure AwsExtension where
  name : String
  provider_type : String
  default_settings : List (String × Value)
  ec2_client : Option Client

/-- `AwsExtension::new`. -/
def AwsExtension.new : AwsExtension :=
  { name := "ec2"
    provider_type := "cloud"
    default_settings :=
      [("region", Value.str "us-east-1"),
       ("instance_type", Value.str "t2.micro"),
       ("ami", Value.str "ami-0c55b159cbfafe1f0"),
       ("availability_zone", Value.str "us-east-1a"),
       ("volume_type", Value.str "gp2")]
    ec2_client := none }

/-! ### The lib_cpi interface, as used by the module

`ActionDefinition`, `ParamType` and the `param!` macro come from the host
interface crate `lib_cpi`; the structures below mirror the declarations the
module fills in. -/

/-- Parameter types used by this module's schemas. -/
inductive ParamType where
  | String : ParamType
  | Integer : ParamType
deriving DecidableEq

/-- One parameter schema entry, as built by `param!`: `required` entries
carry no default, `optional` entries carry their default JSON value. -/
structure ParamDef where
  name : String
  description : String
  param_type : ParamType
  required : Bool
  default : Option Value

/-- An action definition of the capability interface. -/
structure ActionDefinition where
  name : String
  description : String
  parameters : List ParamDef

/-- Modelled from the spec: `lib_cpi::validation::extract_string` is the
required-string parameter validator used ahead of every SDK call ("parameter
validation → SDK call"); it fails when the key is absent from the map or the
value is not a string, and yields the string otherwise. Its source is in the
external `lib_cpi` crate, not in this repository's `src/`. -/
def extract_string (params : Params) (k : String) : Except String String :=
  match params.lookup k with
  | some (Value.str s) => Except.ok s
  | some _ => Except.error ("Invalid type for parameter " ++ k)
  | none => Except.error ("Missing required parameter " ++ k)

/-- Modelled from the spec: `lib_cpi::validation::extract_string_opt`, the
optional-string validator; an absent key is `Ok(None)`, a present string is
`Ok(Some ..)`, a present non-string fails. External `lib_cpi` source. -/
def extract_string_opt (params : Params) (k : String) : Except String (Option String) :=
  match params.lookup k with
  | some (Value.str s) => Except.ok (some s)
  | some _ => Except.error ("Invalid type for parameter " ++ k)
  | none => Except.ok none

/-- Modelled from the spec: `lib_cpi::validation::extract_int`, the required
integer (`i64`) validator. External `lib_cpi` source. -/
def extract_int (params : Params) (k : String) : Except String Int :=
  match params.lookup k with
  | some (Value.num n) => Except.ok n
  | some _ => Except.error ("Invalid type for parameter " ++ k)
  | none => Except.error ("Missing required parameter " ++ k)

/-! ### The module's own functions -/

/-- `AwsExtension::get_client`: lazy initialization of the EC2 client. The
requested region string (defaulted to "us-east-1") only feeds the client
builder; a cached client is returned as such. Building the client cannot
fail in the source (the `Result` error path is never taken). -/
def get_client (self : AwsExtension) (o : Oracle) (region_str : Option String) :
    Except String Client × AwsExtension :=
  let region := region_str.getD "us-east-1"
  match self.ec2_client with
  | some client => (Except.ok client, self)
  | none =>
    let client := o.build_client region
    (Except.ok client, { self with ec2_client := some client })

/-- `AwsExtension::get_name_from_tags`: first tag whose key is "Name" wins;
a missing value on it, or no such tag, yields "unnamed". -/
def get_name_from_tags : List Tag → String
  | [] => "unnamed"
  | tag :: rest =>
    if tag.key = some "Name" then (tag.value).getD "unnamed"
    else get_name_from_tags rest

/-- Result of one action method: the `ActionResult`, the extension state
after the call, and the trace of SDK requests issued during it. -/
structure MethodOut where
  res : Except String Value
  state : AwsExtension
  trace : List SdkRequest

/-- `AwsExtension::parse_ec2_instances`: the nested for-loops pushing one
worker object per instance that has an `instance_id`. -/
def parse_ec2_instances (output : DescribeInstancesOutput) : List Value :=
  output.reservations.foldl
    (fun instances reservation =>
      reservation.instances.foldl
        (fun instances inst =>
          match inst.instance_id with
          | some instance_id =>
            let state := (inst.state.bind InstanceState.name).getD "unknown"
            let name := get_name_from_tags inst.tags
            instances ++
              [Value.obj
                [("id", Value.str instance_id),
                 ("name", Value.str name),
                 ("state", Value.str state),
                 ("instance_type", Value.str (inst.instance_type.getD "unknown")),
                 ("public_ip", optStr inst.public_ip_address),
                 ("private_ip", optStr inst.private_ip_address)]]
          | none => instances)
        instances)
    []

/-- `AwsExtension::parse_ec2_volumes`: the for-loop pushing one volume
object per volume that has a `volume_id`. `size` is an `i32` and the
GB-to-MB conversion `size * 1024` is `i32` multiplication before the
`as i64` cast, hence the 32-bit reduction. -/
def parse_ec2_volumes (output : DescribeVolumesOutput) : List Value :=
  output.volumes.foldl
    (fun volumes volume =>
      match volume.volume_id with
      | some volume_id =>
        let attached_to := volume.attachments.head?.bind Attachment.instance_id
        volumes ++
          [Value.obj
            [("id", Value.str volume_id),
             ("path", Value.str volume_id),
             ("size_mb", Value.num (i32wrap (volume.size.getD 0 * 1024))),
             ("state", Value.str (volume.state.getD "unknown")),
             ("availability_zone", Value.str (volume.availability_zone.getD "unknown")),
             ("attached_to", optStr attached_to)]]
      | none => volumes)
    []

/-- `AwsExtension::list_workers`. -/
def list_workers (self : AwsExtension) (o : Oracle) (region : Option String) : MethodOut :=
  match get_client self o region with
  | (Except.error e, s) => ⟨Except.error e, s, []⟩
  | (Except.ok _client, s) =>
    match o.describe_instances [] with
    | Except.error e =>
      ⟨Except.error ("Failed to list EC2 instances: " ++ e), s, [SdkRequest.describeInstances []]⟩
    | Except.ok result =>
      ⟨Except.ok (Value.obj [("workers", Value.arr (parse_ec2_instances result))]),
        s, [SdkRequest.describeInstances []]⟩

/-- The inline `match instance_type.as_str()` of `create_worker`: the eight
recognized strings map to their enum variants, everything else defaults to
`T2Micro`. -/
def instance_type_of_string (instance_type : String) : InstanceType :=
  if instance_type = "t2.micro" then InstanceType.t2micro
  else if instance_type = "t2.small" then InstanceType.t2small
  else if instance_type = "t2.medium" then InstanceType.t2medium
  else if instance_type = "t3.micro" then InstanceType.t3micro
  else if instance_type = "t3.small" then InstanceType.t3small
  else if instance_type = "t3.medium" then InstanceType.t3medium
  else if instance_type = "m5.large" then InstanceType.m5large
  else if instance_type = "m5.xlarge" then InstanceType.m5xlarge
  else InstanceType.t2micro

/-- `AwsExtension::create_worker`. -/
def create_worker (self : AwsExtension) (o : Oracle)
    (worker_name instance_type ami : String) (region : Option String) : MethodOut :=
  match get_client self o region with
  | (Except.error e, s) => ⟨Except.error e, s, []⟩
  | (Except.ok _client, s) =>
    let tag_specifications : TagSpecification :=
      { resource_type := ResourceType.Instance
        tags := [{ key := some "Name", value := some worker_name }] }
    let instance_type_enum := instance_type_of_string instance_type
    let req : RunInstancesReq :=
      { image_id := ami
        instance_type := instance_type_enum
        min_count := 1
        max_count := 1
        tag_specifications := [tag_specifications] }
    match o.run_instances req with
    | Except.error e =>
      ⟨Except.error ("Failed to create EC2 instance: " ++ e), s, [SdkRequest.runInstances req]⟩
    | Except.ok result =>
      match result.instances.head? with
      | some inst =>
        match inst.instance_id with
        | some instance_id =>
          ⟨Except.ok (Value.obj
              [("success", Value.bool true),
               ("id", Value.str instance_id),
               ("name", Value.str worker_name)]),
            s, [SdkRequest.runInstances req]⟩
        | none => ⟨Except.error "No instance was created", s, [SdkRequest.runInstances req]⟩
      | none => ⟨Except.error "No instance was created", s, [SdkRequest.runInstances req]⟩

/-- `AwsExtension::delete_worker`. -/
def delete_worker (self : AwsExtension) (o : Oracle)
    (worker_id : String) (region : Option String) : MethodOut :=
  match get_client self o region with
  | (Except.error e, s) => ⟨Except.error e, s, []⟩
  | (Except.ok _client, s) =>
    match o.terminate_instances [worker_id] with
    | Except.error e =>
      ⟨Except.error ("Failed to terminate EC2 instance: " ++ e), s,
        [SdkRequest.terminateInstances [worker_id]]⟩
    | Except.ok _ =>
      ⟨Except.ok (Value.obj [("success", Value.bool true)]), s,
        [SdkRequest.terminateInstances [worker_id]]⟩

/-- `AwsExtension::get_worker`. -/
def get_worker (self : AwsExtension) (o : Oracle)
    (worker_id : String) (region : Option String) : MethodOut :=
  match get_client self o region with
  | (Except.error e, s) => ⟨Except.error e, s, []⟩
  | (Except.ok _client, s) =>
    match o.describe_instances [worker_id] with
    | Except.error e =>
      ⟨Except.error ("Failed to get EC2 instance details: " ++ e), s,
        [SdkRequest.describeInstances [worker_id]]⟩
    | Except.ok result =>
      match result.reservations.head? with
      | some reservation =>
        match reservation.instances.head? with
        | some inst =>
          let name := get_name_from_tags inst.tags
          let state := (inst.state.bind InstanceState.name).getD "unknown"
          let vm_info := Value.obj
            [("name", Value.str name),
             ("id", Value.str (inst.instance_id.getD "unknown")),
             ("state", Value.str state),
             ("instance_type", Value.str (inst.instance_type.getD "unknown")),
             ("public_ip", optStr inst.public_ip_address),
             ("private_ip", optStr inst.private_ip_address),
             ("availability_zone", optStr (inst.placement.bind Placement.availability_zone))]
          ⟨Except.ok (Value.obj [("success", Value.bool true), ("vm", vm_info)]), s,
            [SdkRequest.describeInstances [worker_id]]⟩
        | none =>
          ⟨Except.error ("Instance with ID " ++ worker_id ++ " not found"), s,
            [SdkRequest.describeInstances [worker_id]]⟩
      | none =>
        ⟨Except.error ("Instance with ID " ++ worker_id ++ " not found"), s,
          [SdkRequest.describeInstances [worker_id]]⟩

/-- `AwsExtension::has_worker`: the existence check with not-found error
sniffing over the `Debug` formatting of the SDK error. -/
def has_worker (self : AwsExtension) (o : Oracle)
    (worker_id : String) (region : Option String) : MethodOut :=
  match get_client self o region with
  | (Except.error e, s) => ⟨Except.error e, s, []⟩
  | (Except.ok _client, s) =>
    match o.describe_instances [worker_id] with
    | Except.ok output =>
      let ex := output.reservations.any (fun r => !r.instances.isEmpty)
      ⟨Except.ok (Value.obj [("success", Value.bool true), ("exists", Value.bool ex)]), s,
        [SdkRequest.describeInstances [worker_id]]⟩
    | Except.error err =>
      if strContains err "InvalidInstanceID.NotFound" then
        ⟨Except.ok (Value.obj [("success", Value.bool true), ("exists", Value.bool false)]), s,
          [SdkRequest.describeInstances [worker_id]]⟩
      else
        ⟨Except.error ("Failed to check if instance exists: " ++ err), s,
          [SdkRequest.describeInstances [worker_id]]⟩

/-- `AwsExtension::start_worker`. -/
def start_worker (self : AwsExtension) (o : Oracle)
    (worker_id : String) (region : Option String) : MethodOut :=
  match get_client self o region with
  | (Except.error e, s) => ⟨Except.error e, s, []⟩
  | (Except.ok _client, s) =>
    match o.start_instances [worker_id] with
    | Except.error e =>
      ⟨Except.error ("Failed to start EC2 instance: " ++ e), s,
        [SdkRequest.startInstances [worker_id]]⟩
    | Except.ok _ =>
      ⟨Except.ok (Value.obj [("success", Value.bool true), ("started", Value.str worker_id)]), s,
        [SdkRequest.startInstances [worker_id]]⟩

/-- `AwsExtension::get_volumes`. -/
def get_volumes (self : AwsExtension) (o : Oracle) (region : Option String) : MethodOut :=
  match get_client self o region with
  | (Except.error e, s) => ⟨Except.error e, s, []⟩
  | (Except.ok _client, s) =>
    match o.describe_volumes [] with
    | Except.error e =>
      ⟨Except.error ("Failed to list EBS volumes: " ++ e), s, [SdkRequest.describeVolumes []]⟩
    | Except.ok result =>
      ⟨Except.ok (Value.obj
          [("success", Value.bool true),
           ("volumes", Value.arr (parse_ec2_volumes result))]),
        s, [SdkRequest.describeVolumes []]⟩

/-- `AwsExtension::has_volume`. -/
def has_volume (self : AwsExtension) (o : Oracle)
    (volume_id : String) (region : Option String) : MethodOut :=
  match get_client self o region with
  | (Except.error e, s) => ⟨Except.error e, s, []⟩
  | (Except.ok _client, s) =>
    match o.describe_volumes [volume_id] with
    | Except.ok output =>
      let ex := !output.volumes.isEmpty
      ⟨Except.ok (Value.obj [("success", Value.bool true), ("exists", Value.bool ex)]), s,
        [SdkRequest.describeVolumes [volume_id]]⟩
    | Except.error err =>
      if strContains err "InvalidVolume.NotFound" then
        ⟨Except.ok (Value.obj [("success", Value.bool true), ("exists", Value.bool false)]), s,
          [SdkRequest.describeVolumes [volume_id]]⟩
      else
        ⟨Except.error ("Failed to check if volume exists: " ++ err), s,
          [SdkRequest.describeVolumes [volume_id]]⟩

/-- `AwsExtension::create_volume`: the `i64` size parameter is cast
`as i32` into the SDK request. -/
def create_volume (self : AwsExtension) (o : Oracle)
    (size_gb : Int) (availability_zone volume_type : String) (region : Option String) : MethodOut :=
  match get_client self o region with
  | (Except.error e, s) => ⟨Except.error e, s, []⟩
  | (Except.ok _client, s) =>
    let req : CreateVolumeReq :=
      { availability_zone := availability_zone
        size := i32wrap size_gb
        volume_type := volume_type }
    match o.create_volume req with
    | Except.error e =>
      ⟨Except.error ("Failed to create EBS volume: " ++ e), s, [SdkRequest.createVolume req]⟩
    | Except.ok result =>
      match result.volume_id with
      | some volume_id =>
        ⟨Except.ok (Value.obj
            [("success", Value.bool true),
             ("id", Value.str volume_id),
             ("path", Value.str volume_id)]),
          s, [SdkRequest.createVolume req]⟩
      | none => ⟨Except.error "No volume ID was returned", s, [SdkRequest.createVolume req]⟩

/-- `AwsExtension::delete_volume`. -/
def delete_volume (self : AwsExtension) (o : Oracle)
    (volume_id : String) (region : Option String) : MethodOut :=
  match get_client self o region with
  | (Except.error e, s) => ⟨Except.error e, s, []⟩
  | (Except.ok _client, s) =>
    match o.delete_volume volume_id with
    | Except.error e =>
      ⟨Except.error ("Failed to delete EBS volume: " ++ e), s, [SdkRequest.deleteVolume volume_id]⟩
    | Except.ok _ =>
      ⟨Except.ok (Value.obj [("success", Value.bool true)]), s, [SdkRequest.deleteVolume volume_id]⟩

/-- `AwsExtension::attach_volume`. -/
def attach_volume (self : AwsExtension) (o : Oracle)
    (worker_id volume_id device_name : String) (region : Option String) : MethodOut :=
  match get_client self o region with
  | (Except.error e, s) => ⟨Except.error e, s, []⟩
  | (Except.ok _client, s) =>
    let req : AttachVolumeReq :=
      { instance_id := worker_id, volume_id := volume_id, device := device_name }
    match o.attach_volume req with
    | Except.error e =>
      ⟨Except.error ("Failed to attach EBS volume: " ++ e), s, [SdkRequest.attachVolume req]⟩
    | Except.ok _ =>
      ⟨Except.ok (Value.obj [("success", Value.bool true)]), s, [SdkRequest.attachVolume req]⟩

/-- `AwsExtension::detach_volume`. -/
def detach_volume (self : AwsExtension) (o : Oracle)
    (volume_id : String) (region : Option String) : MethodOut :=
  match get_client self o region with
  | (Except.error e, s) => ⟨Except.error e, s, []⟩
  | (Except.ok _client, s) =>
    match o.detach_volume volume_id with
    | Except.error e =>
      ⟨Except.error ("Failed to detach EBS volume: " ++ e), s, [SdkRequest.detachVolume volume_id]⟩
    | Except.ok _ =>
      ⟨Except.ok (Value.obj [("success", Value.bool true)]), s, [SdkRequest.detachVolume volume_id]⟩

/-- `AwsExtension::create_snapshot`. -/
def create_snapshot (self : AwsExtension) (o : Oracle)
    (volume_id snapshot_name : String) (region : Option String) : MethodOut :=
  match get_client self o region with
  | (Except.error e, s) => ⟨Except.error e, s, []⟩
  | (Except.ok _client, s) =>
    let tags : List Tag := [{ key := some "Name", value := some snapshot_name }]
    let desc := "Snapshot of " ++ volume_id
    let req : CreateSnapshotReq :=
      { volume_id := volume_id
        description := desc
        tag_specifications := [{ resource_type := ResourceType.Snapshot, tags := tags }] }
    match o.create_snapshot req with
    | Except.error e =>
      ⟨Except.error ("Failed to create snapshot: " ++ e), s, [SdkRequest.createSnapshot req]⟩
    | Except.ok result =>
      match result.snapshot_id with
      | some snapshot_id =>
        ⟨Except.ok (Value.obj
            [("success", Value.bool true), ("id", Value.str snapshot_id)]),
          s, [SdkRequest.createSnapshot req]⟩
      | none => ⟨Except.error "No snapshot ID was returned", s, [SdkRequest.createSnapshot req]⟩

/-- `AwsExtension::delete_snapshot`. -/
def delete_snapshot (self : AwsExtension) (o : Oracle)
    (snapshot_id : String) (region : Option String) : MethodOut :=
  match get_client self o region with
  | (Except.error e, s) => ⟨Except.error e, s, []⟩
  | (Except.ok _client, s) =>
    match o.delete_snapshot snapshot_id with
    | Except.error e =>
      ⟨Except.error ("Failed to delete snapshot: " ++ e), s, [SdkRequest.deleteSnapshot snapshot_id]⟩
    | Except.ok _ =>
      ⟨Except.ok (Value.obj [("success", Value.bool true)]), s,
        [SdkRequest.deleteSnapshot snapshot_id]⟩

/-- `AwsExtension::has_snapshot`. -/
def has_snapshot (self : AwsExtension) (o : Oracle)
    (snapshot_id : String) (region : Option String) : MethodOut :=
  match get_client self o region with
  | (Except.error e, s) => ⟨Except.error e, s, []⟩
  | (Except.ok _client, s) =>
    match o.describe_snapshots [snapshot_id] with
    | Except.ok output =>
      let ex := !output.snapshots.isEmpty
      ⟨Except.ok (Value.obj [("success", Value.bool true), ("exists", Value.bool ex)]), s,
        [SdkRequest.describeSnapshots [snapshot_id]]⟩
    | Except.error err =>
      if strContains err "InvalidSnapshot.NotFound" then
        ⟨Except.ok (Value.obj [("success", Value.bool true), ("exists", Value.bool false)]), s,
          [SdkRequest.describeSnapshots [snapshot_id]]⟩
      else
        ⟨Except.error ("Failed to check if snapshot exists: " ++ err), s,
          [SdkRequest.describeSnapshots [snapshot_id]]⟩

/-- `AwsExtension::reboot_worker`. -/
def reboot_worker (self : AwsExtension) (o : Oracle)
    (worker_id : String) (region : Option String) : MethodOut :=
  match get_client self o region with
  | (Except.error e, s) => ⟨Except.error e, s, []⟩
  | (Except.ok _client, s) =>
    match o.reboot_instances [worker_id] with
    | Except.error e =>
      ⟨Except.error ("Failed to reboot EC2 instance: " ++ e), s,
        [SdkRequest.rebootInstances [worker_id]]⟩
    | Except.ok _ =>
      ⟨Except.ok (Value.obj [("success", Value.bool true)]), s,
        [SdkRequest.rebootInstances [worker_id]]⟩

/-- `AwsExtension::set_worker_metadata`. -/
def set_worker_metadata (self : AwsExtension) (o : Oracle)
    (worker_id key value : String) (region : Option String) : MethodOut :=
  match get_client self o region with
  | (Except.error e, s) => ⟨Except.error e, s, []⟩
  | (Except.ok _client, s) =>
    let tag : Tag := { key := some key, value := some value }
    match o.create_tags [worker_id] [tag] with
    | Except.error e =>
      ⟨Except.error ("Failed to set instance metadata: " ++ e), s,
        [SdkRequest.createTags [worker_id] [tag]]⟩
    | Except.ok _ =>
      ⟨Except.ok (Value.obj [("success", Value.bool true)]), s,
        [SdkRequest.createTags [worker_id] [tag]]⟩

/-- `AwsExtension::snapshot_volume`: delegates to `create_snapshot` and
re-shapes its result, reading the "id" field of the returned JSON. -/
def snapshot_volume (self : AwsExtension) (o : Oracle)
    (source_volume_id snapshot_name : String) (region : Option String) : MethodOut :=
  let out := create_snapshot self o source_volume_id snapshot_name region
  match out.res with
  | Except.error e => ⟨Except.error e, out.state, out.trace⟩
  | Except.ok snapshot_result =>
    match snapshot_result.get "id" with
    | some (Value.str id) =>
      ⟨Except.ok (Value.obj
          [("success", Value.bool true),
           ("id", Value.str id),
           ("source_volume_id", Value.str source_volume_id)]),
        out.state, out.trace⟩
    | _ => ⟨Except.error "Failed to get snapshot ID", out.state, out.trace⟩

/-- `CpiExtension::list_actions` for `AwsExtension`. -/
def list_actions (_self : AwsExtension) : List String :=
  ["test_install", "list_workers", "create_worker", "delete_worker", "get_worker",
   "has_worker", "start_worker", "get_volumes", "has_volume", "create_volume",
   "delete_volume", "attach_volume", "detach_volume", "create_snapshot",
   "delete_snapshot", "has_snapshot", "reboot_worker", "set_worker_metadata",
   "snapshot_volume"]

/-- The optional region parameter entry shared by every action schema. -/
def region_param : ParamDef :=
  { name := "region", description := "AWS region", param_type := ParamType.String
    required := false, default := some (Value.str "us-east-1") }

/-- A required string parameter entry. -/
def req_str (name description : String) : ParamDef :=
  { name := name, description := description, param_type := ParamType.String
    required := true, default := none }

/-- `CpiExtension::get_action_definition` for `AwsExtension`: the per-action
parameter schemas. -/
def get_action_definition (_self : AwsExtension) (action : String) : Option ActionDefinition :=
  if action = "test_install" then some
    { name := "test_install"
      description := "Test if AWS credentials are properly configured"
      parameters := [region_param] }
  else if action = "list_workers" then some
    { name := "list_workers"
      description := "List all EC2 instances"
      parameters := [region_param] }
  else if action = "create_worker" then some
    { name := "create_worker"
      description := "Create a new EC2 instance"
      parameters :=
        [req_str "worker_name" "Name of the instance to create",
         { name := "instance_type", description := "EC2 instance type"
           param_type := ParamType.String, required := false
           default := some (Value.str "t2.micro") },
         { name := "ami", description := "Amazon Machine Image ID"
           param_type := ParamType.String, required := false
           default := some (Value.str "ami-0c55b159cbfafe1f0") },
         region_param] }
  else if action = "delete_worker" then some
    { name := "delete_worker"
      description := "Terminate an EC2 instance"
      parameters := [req_str "worker_id" "ID of the instance to terminate", region_param] }
  else if action = "get_worker" then some
    { name := "get_worker"
      description := "Get information about an EC2 instance"
      parameters := [req_str "worker_id" "ID of the instance", region_param] }
  else if action = "has_worker" then some
    { name := "has_worker"
      description := "Check if an EC2 instance exists"
      parameters := [req_str "worker_id" "ID of the instance", region_param] }
  else if action = "start_worker" then some
    { name := "start_worker"
      description := "Start an EC2 instance"
      parameters := [req_str "worker_id" "ID of the instance to start", region_param] }
  else if action = "get_volumes" then some
    { name := "get_volumes"
      description := "List all EBS volumes"
      parameters := [region_param] }
  else if action = "has_volume" then some
    { name := "has_volume"
      description := "Check if an EBS volume exists"
      parameters := [req_str "volume_id" "ID of the volume", region_param] }
  else if action = "create_volume" then some
    { name := "create_volume"
      description := "Create a new EBS volume"
      parameters :=
        [{ name := "size_gb", description := "Size in GB"
           param_type := ParamType.Integer, required := true, default := none },
         req_str "availability_zone" "Availability zone",
         { name := "volume_type", description := "Volume type (gp2, io1, etc.)"
           param_type := ParamType.String, required := false
           default := some (Value.str "gp2") },
         region_param] }
  else if action = "delete_volume" then some
    { name := "delete_volume"
      description := "Delete an EBS volume"
      parameters := [req_str "volume_id" "ID of the volume", region_param] }
  else if action = "attach_volume" then some
    { name := "attach_volume"
      description := "Attach an EBS volume to an EC2 instance"
      parameters :=
        [req_str "worker_id" "ID of the instance",
         req_str "volume_id" "ID of the volume",
         req_str "device_name" "Device name (e.g., /dev/sdf)",
         region_param] }
  else if action = "detach_volume" then some
    { name := "detach_volume"
      description := "Detach an EBS volume from an EC2 instance"
      parameters := [req_str "volume_id" "ID of the volume", region_param] }
  else if action = "create_snapshot" then some
    { name := "create_snapshot"
      description := "Create a snapshot of an EBS volume"
      parameters :=
        [req_str "volume_id" "ID of the volume",
         req_str "snapshot_name" "Name of the snapshot",
         region_param] }
  else if action = "delete_snapshot" then some
    { name := "delete_snapshot"
      description := "Delete a snapshot"
      parameters := [req_str "snapshot_id" "ID of the snapshot", region_param] }
  else if action = "has_snapshot" then some
    { name := "has_snapshot"
      description := "Check if a snapshot exists"
      parameters := [req_str "snapshot_id" "ID of the snapshot", region_param] }
  else if action = "reboot_worker" then some
    { name := "reboot_worker"
      description := "Reboot an EC2 instance"
      parameters := [req_str "worker_id" "ID of the instance", region_param] }
  else if action = "set_worker_metadata" then some
    { name := "set_worker_metadata"
      description := "Set metadata (tags) for an EC2 instance"
      parameters :=
        [req_str "worker_id" "ID of the instance",
         req_str "key" "Metadata key",
         req_str "value" "Metadata value",
         region_param] }
  else if action = "snapshot_volume" then some
    { name := "snapshot_volume"
      description := "Create a snapshot of an EBS volume"
      parameters :=
        [req_str "source_volume_id" "ID of the source volume",
         req_str "snapshot_name" "Name for the snapshot",
         region_param] }
  else none

/-- `CpiExtension::execute_action` for `AwsExtension`. The receiver is a
shared reference in the source: the dispatch builds a tokio runtime, clones
`self` into the mutable `aws_ext`, validates the parameters of the chosen
arm and runs the corresponding async method on the clone. The clone is
dropped on return, so the state component of the output is the unchanged
`ext` that the caller still holds; the trace component records the SDK
requests the dispatched method issued. -/
def execute_action (ext : AwsExtension) (o : Oracle) (action : String) (params : Params) :
    MethodOut :=
  match o.runtime_build with
  | Except.error e => ⟨Except.error ("Failed to create runtime: " ++ e), ext, []⟩
  | Except.ok _ =>
    let aws_ext : AwsExtension :=
      { name := ext.name
        provider_type := ext.provider_type
        default_settings := ext.default_settings
        ec2_client := ext.ec2_client }
    let region := (extract_string_opt params "region").toOption.join
    if action = "test_install" then
      ⟨o.test_install, ext, []⟩
    else if action = "list_workers" then
      let out := list_workers aws_ext o region
      ⟨out.res, ext, out.trace⟩
    else if action = "create_worker" then
      match extract_string params "worker_name" with
      | Except.error e => ⟨Except.error e, ext, []⟩
      | Except.ok worker_name =>
        match extract_string_opt params "instance_type" with
        | Except.error e => ⟨Except.error e, ext, []⟩
        | Except.ok instance_type_opt =>
          match extract_string_opt params "ami" with
          | Except.error e => ⟨Except.error e, ext, []⟩
          | Except.ok ami_opt =>
            let instance_type := instance_type_opt.getD "t2.micro"
            let ami := ami_opt.getD "ami-0c55b159cbfafe1f0"
            let out := create_worker aws_ext o worker_name instance_type ami region
            ⟨out.res, ext, out.trace⟩
    else if action = "delete_worker" then
      match extract_string params "worker_id" with
      | Except.error e => ⟨Except.error e, ext, []⟩
      | Except.ok worker_id =>
        let out := delete_worker aws_ext o worker_id region
        ⟨out.res, ext, out.trace⟩
    else if action = "get_worker" then
      match extract_string params "worker_id" with
      | Except.error e => ⟨Except.error e, ext, []⟩
      | Except.ok worker_id =>
        let out := get_worker aws_ext o worker_id region
        ⟨out.res, ext, out.trace⟩
    else if action = "has_worker" then
      match extract_string params "worker_id" with
      | Except.error e => ⟨Except.error e, ext, []⟩
      | Except.ok worker_id =>
        let out := has_worker aws_ext o worker_id region
        ⟨out.res, ext, out.trace⟩
    else if action = "start_worker" then
      match extract_string params "worker_id" with
      | Except.error e => ⟨Except.error e, ext, []⟩
      | Except.ok worker_id =>
        let out := start_worker aws_ext o worker_id region
        ⟨out.res, ext, out.trace⟩
    else if action = "get_volumes" then
      let out := get_volumes aws_ext o region
      ⟨out.res, ext, out.trace⟩
    else if action = "has_volume" then
      match extract_string params "volume_id" with
      | Except.error e => ⟨Except.error e, ext, []⟩
      | Except.ok volume_id =>
        let out := has_volume aws_ext o volume_id region
        ⟨out.res, ext, out.trace⟩
    else if action = "create_volume" then
      match extract_int params "size_gb" with
      | Except.error e => ⟨Except.error e, ext, []⟩
      | Except.ok size_gb =>
        match extract_string params "availability_zone" with
        | Except.error e => ⟨Except.error e, ext, []⟩
        | Except.ok availability_zone =>
          match extract_string_opt params "volume_type" with
          | Except.error e => ⟨Except.error e, ext, []⟩
          | Except.ok volume_type_opt =>
            let volume_type := volume_type_opt.getD "gp2"
            let out := create_volume aws_ext o size_gb availability_zone volume_type region
            ⟨out.res, ext, out.trace⟩
    else if action = "delete_volume" then
      match extract_string params "volume_id" with
      | Except.error e => ⟨Except.error e, ext, []⟩
      | Except.ok volume_id =>
        let out := delete_volume aws_ext o volume_id region
        ⟨out.res, ext, out.trace⟩
    else if action = "attach_volume" then
      match extract_string params "worker_id" with
      | Except.error e => ⟨Except.error e, ext, []⟩
      | Except.ok worker_id =>
        match extract_string params "volume_id" with
        | Except.error e => ⟨Except.error e, ext, []⟩
        | Except.ok volume_id =>
          match extract_string params "device_name" with
          | Except.error e => ⟨Except.error e, ext, []⟩
          | Except.ok device_name =>
            let out := attach_volume aws_ext o worker_id volume_id device_name region
            ⟨out.res, ext, out.trace⟩
    else if action = "detach_volume" then
      match extract_string params "volume_id" with
      | Except.error e => ⟨Except.error e, ext, []⟩
      | Except.ok volume_id =>
        let out := detach_volume aws_ext o volume_id region
        ⟨out.res, ext, out.trace⟩
    else if action = "create_snapshot" then
      match extract_string params "volume_id" with
      | Except.error e => ⟨Except.error e, ext, []⟩
      | Except.ok volume_id =>
        match extract_string params "snapshot_name" with
        | Except.error e => ⟨Except.error e, ext, []⟩
        | Except.ok snapshot_name =>
          let out := create_snapshot aws_ext o volume_id snapshot_name region
          ⟨out.res, ext, out.trace⟩
    else if action = "delete_snapshot" then
      match extract_string params "snapshot_id" with
      | Except.error e => ⟨Except.error e, ext, []⟩
      | Except.ok snapshot_id =>
        let out := delete_snapshot aws_ext o snapshot_id region
        ⟨out.res, ext, out.trace⟩
    else if action = "has_snapshot" then
      match extract_string params "snapshot_id" with
      | Except.error e => ⟨Except.error e, ext, []⟩
      | Except.ok snapshot_id =>
        let out := has_snapshot aws_ext o snapshot_id region
        ⟨out.res, ext, out.trace⟩
    else if action = "reboot_worker" then
      match extract_string params "worker_id" with
      | Except.error e => ⟨Except.error e, ext, []⟩
      | Except.ok worker_id =>
        let out := reboot_worker aws_ext o worker_id region
        ⟨out.res, ext, out.trace⟩
    else if action = "set_worker_metadata" then
      match extract_string params "worker_id" with
      | Except.error e => ⟨Except.error e, ext, []⟩
      | Except.ok worker_id =>
        match extract_string params "key" with
        | Except.error e => ⟨Except.error e, ext, []⟩
        | Except.ok key =>
          match extract_string params "value" with
          | Except.error e => ⟨Except.error e, ext, []⟩
          | Except.ok value =>
            let out := set_worker_metadata aws_ext o worker_id key value region
            ⟨out.res, ext, out.trace⟩
    else if action = "snapshot_volume" then
      match extract_string params "source_volume_id" with
      | Except.error e => ⟨Except.error e, ext, []⟩
      | Except.ok source_volume_id =>
        match extract_string params "snapshot_name" with
        | Except.error e => ⟨Except.error e, ext, []⟩
        | Except.ok snapshot_name =>
          let out := snapshot_volume aws_ext o source_volume_id snapshot_name region
          ⟨out.res, ext, out.trace⟩
    else
      ⟨Except.error ("Action " ++ action ++ " not found"), ext, []⟩

/-! ### Auxiliary vocabulary for the claims, and a concrete environment -/

/-- The region argument every dispatch arm passes on:
`validation::extract_string_opt(params, "region").ok().flatten()`. -/
def region_arg (params : Params) : Option String :=
  (extract_string_opt params "region").toOption.join

/-- Does the parameter map carry a string under `k`? (A required string
parameter is "absent or of the wrong type" exactly when this is false.) -/
def hasStrParam (params : Params) (k : String) : Bool :=
  match params.lookup k with
  | some (Value.str _) => true
  | _ => false

/-- Does the parameter map carry an integer under `k`? -/
def hasIntParam (params : Params) (k : String) : Bool :=
  match params.lookup k with
  | some (Value.num _) => true
  | _ => false

/-- A concrete environment: the runtime builds, the client builder yields
handle 0, and every SDK operation fails with "offline". Used to instantiate
universally quantified theorems at a concrete input. -/
def defaultOracle : Oracle :=
  { runtime_build := Except.ok ()
    build_client := fun _ => 0
    test_install := Except.error "not implemented"
    describe_instances := fun _ => Except.error "offline"
    run_instances := fun _ => Except.error "offline"
    terminate_instances := fun _ => Except.error "offline"
    start_instances := fun _ => Except.error "offline"
    describe_volumes := fun _ => Except.error "offline"
    create_volume := fun _ => Except.error "offline"
    delete_volume := fun _ => Except.error "offline"
    attach_volume := fun _ => Except.error "offline"
    detach_volume := fun _ => Except.error "offline"
    create_snapshot := fun _ => Except.error "offline"
    delete_snapshot := fun _ => Except.error "offline"
    describe_snapshots := fun _ => Except.error "offline"
    reboot_instances := fun _ => Except.error "offline"
    create_tags := fun _ _ => Except.error "offline" }

/-! ### Dispatch arm lemmas

One lemma per `execute_action` arm, describing the dispatch at that literal
action name (when the tokio runtime was built). The clone the source
dispatches on has the same four fields as `ext`, so it is `ext` itself by
structure eta. -/

theorem execute_runtime_error (ext : AwsExtension) (o : Oracle) (action : String)
    (params : Params) (e : String) (hr : o.runtime_build = Except.error e) :
    execute_action ext o action params =
      ⟨Except.error ("Failed to create runtime: " ++ e), ext, []⟩ := by
  unfold execute_action; rw [hr]

theorem execute_test_install (ext : AwsExtension) (o : Oracle) (params : Params)
    (hr : o.runtime_build = Except.ok ()) :
    execute_action ext o "test_install" params = ⟨o.test_install, ext, []⟩ := by
  unfold execute_action; rw [hr]; rfl

theorem execute_list_workers (ext : AwsExtension) (o : Oracle) (params : Params)
    (hr : o.runtime_build = Except.ok ()) :
    execute_action ext o "list_workers" params =
      ⟨(list_workers ext o (region_arg params)).res, ext,
       (list_workers ext o (region_arg params)).trace⟩ := by
  unfold execute_action; rw [hr]; rfl

theorem execute_create_worker (ext : AwsExtension) (o : Oracle) (params : Params)
    (hr : o.runtime_build = Except.ok ()) :
    execute_action ext o "create_worker" params =
      match extract_string params "worker_name" with
      | Except.error e => ⟨Except.error e, ext, []⟩
      | Except.ok worker_name =>
        match extract_string_opt params "instance_type" with
        | Except.error e => ⟨Except.error e, ext, []⟩
        | Except.ok instance_type_opt =>
          match extract_string_opt params "ami" with
          | Except.error e => ⟨Except.error e, ext, []⟩
          | Except.ok ami_opt =>
            let out := create_worker ext o worker_name (instance_type_opt.getD "t2.micro")
              (ami_opt.getD "ami-0c55b159cbfafe1f0") (region_arg params)
            ⟨out.res, ext, out.trace⟩ := by
  unfold execute_action; rw [hr]; rfl

theorem execute_delete_worker (ext : AwsExtension) (o : Oracle) (params : Params)
    (hr : o.runtime_build = Except.ok ()) :
    execute_action ext o "delete_worker" params =
      match extract_string params "worker_id" with
      | Except.error e => ⟨Except.error e, ext, []⟩
      | Except.ok worker_id =>
        let out := delete_worker ext o worker_id (region_arg params)
        ⟨out.res, ext, out.trace⟩ := by
  unfold execute_action; rw [hr]; rfl

theorem execute_get_worker (ext : AwsExtension) (o : Oracle) (params : Params)
    (hr : o.runtime_build = Except.ok ()) :
    execute_action ext o "get_worker" params =
      match extract_string params "worker_id" with
      | Except.error e => ⟨Except.error e, ext, []⟩
      | Except.ok worker_id =>
        let out := get_worker ext o worker_id (region_arg params)
        ⟨out.res, ext, out.trace⟩ := by
  unfold execute_action; rw [hr]; rfl

theorem execute_has_worker (ext : AwsExtension) (o : Oracle) (params : Params)
    (hr : o.runtime_build = Except.ok ()) :
    execute_action ext o "has_worker" params =
      match extract_string params "worker_id" with
      | Except.error e => ⟨Except.error e, ext, []⟩
      | Except.ok worker_id =>
        let out := has_worker ext o worker_id (region_arg params)
        ⟨out.res, ext, out.trace⟩ := by
  unfold execute_action; rw [hr]; rfl

theorem execute_start_worker (ext : AwsExtension) (o : Oracle) (params : Params)
    (hr : o.runtime_build = Except.ok ()) :
    execute_action ext o "start_worker" params =
      match extract_string params "worker_id" with
      | Except.error e => ⟨Except.error e, ext, []⟩
      | Except.ok worker_id =>
        let out := start_worker ext o worker_id (region_arg params)
        ⟨out.res, ext, out.trace⟩ := by
  unfold execute_action; rw [hr]; rfl

theorem execute_get_volumes (ext : AwsExtension) (o : Oracle) (params : Params)
    (hr : o.runtime_build = Except.ok ()) :
    execute_action ext o "get_volumes" params =
      ⟨(get_volumes ext o (region_arg params)).res, ext,
       (get_volumes ext o (region_arg params)).trace⟩ := by
  unfold execute_action; rw [hr]; rfl

theorem execute_has_volume (ext : AwsExtension) (o : Oracle) (params : Params)
    (hr : o.runtime_build = Except.ok ()) :
    execute_action ext o "has_volume" params =
      match extract_string params "volume_id" with
      | Except.error e => ⟨Except.error e, ext, []⟩
      | Except.ok volume_id =>
        let out := has_volume ext o volume_id (region_arg params)
        ⟨out.res, ext, out.trace⟩ := by
  unfold execute_action; rw [hr]; rfl

theorem execute_create_volume (ext : AwsExtension) (o : Oracle) (params : Params)
    (hr : o.runtime_build = Except.ok ()) :
    execute_action ext o "create_volume" params =
      match extract_int params "size_gb" with
      | Except.error e => ⟨Except.error e, ext, []⟩
      | Except.ok size_gb =>
        match extract_string params "availability_zone" with
        | Except.error e => ⟨Except.error e, ext, []⟩
        | Except.ok availability_zone =>
          match extract_string_opt params "volume_type" with
          | Except.error e => ⟨Except.error e, ext, []⟩
          | Except.ok volume_type_opt =>
            let out := create_volume ext o size_gb availability_zone
              (volume_type_opt.getD "gp2") (region_arg params)
            ⟨out.res, ext, out.trace⟩ := by
  unfold execute_action; rw [hr]; rfl

theorem execute_delete_volume (ext : AwsExtension) (o : Oracle) (params : Params)
    (hr : o.runtime_build = Except.ok ()) :
    execute_action ext o "delete_volume" params =
      match extract_string params "volume_id" with
      | Except.error e => ⟨Except.error e, ext, []⟩
      | Except.ok volume_id =>
        let out := delete_volume ext o volume_id (region_arg params)
        ⟨out.res, ext, out.trace⟩ := by
  unfold execute_action; rw [hr]; rfl

theorem execute_attach_volume (ext : AwsExtension) (o : Oracle) (params : Params)
    (hr : o.runtime_build = Except.ok ()) :
    execute_action ext o "attach_volume" params =
      match extract_string params "worker_id" with
      | Except.error e => ⟨Except.error e, ext, []⟩
      | Except.ok worker_id =>
        match extract_string params "volume_id" with
        | Except.error e => ⟨Except.error e, ext, []⟩
        | Except.ok volume_id =>
          match extract_string params "device_name" with
          | Except.error e => ⟨Except.error e, ext, []⟩
          | Except.ok device_name =>
            let out := attach_volume ext o worker_id volume_id device_name (region_arg params)
            ⟨out.res, ext, out.trace⟩ := by
  unfold execute_action; rw [hr]; rfl

theorem execute_detach_volume (ext : AwsExtension) (o : Oracle) (params : Params)
    (hr : o.runtime_build = Except.ok ()) :
    execute_action ext o "detach_volume" params =
      match extract_string params "volume_id" with
      | Except.error e => ⟨Except.error e, ext, []⟩
      | Except.ok volume_id =>
        let out := detach_volume ext o volume_id (region_arg params)
        ⟨out.res, ext, out.trace⟩ := by
  unfold execute_action; rw [hr]; rfl

theorem execute_create_snapshot (ext : AwsExtension) (o : Oracle) (params : Params)
    (hr : o.runtime_build = Except.ok ()) :
    execute_action ext o "create_snapshot" params =
      match extract_string params "volume_id" with
      | Except.error e => ⟨Except.error e, ext, []⟩
      | Except.ok volume_id =>
        match extract_string params "snapshot_name" with
        | Except.error e => ⟨Except.error e, ext, []⟩
        | Except.ok snapshot_name =>
          let out := create_snapshot ext o volume_id snapshot_name (region_arg params)
          ⟨out.res, ext, out.trace⟩ := by
  unfold execute_action; rw [hr]; rfl

theorem execute_delete_snapshot (ext : AwsExtension) (o : Oracle) (params : Params)
    (hr : o.runtime_build = Except.ok ()) :
    execute_action ext o "delete_snapshot" params =
      match extract_string params "snapshot_id" with
      | Except.error e => ⟨Except.error e, ext, []⟩
      | Except.ok snapshot_id =>
        let out := delete_snapshot ext o snapshot_id (region_arg params)
        ⟨out.res, ext, out.trace⟩ := by
  unfold execute_action; rw [hr]; rfl

theorem execute_has_snapshot (ext : AwsExtension) (o : Oracle) (params : Params)
    (hr : o.runtime_build = Except.ok ()) :
    execute_action ext o "has_snapshot" params =
      match extract_string params "snapshot_id" with
      | Except.error e => ⟨Except.error e, ext, []⟩
      | Except.ok snapshot_id =>
        let out := has_snapshot ext o snapshot_id (region_arg params)
        ⟨out.res, ext, out.trace⟩ := by
  unfold execute_action; rw [hr]; rfl

theorem execute_reboot_worker (ext : AwsExtension) (o : Oracle) (params : Params)
    (hr : o.runtime_build = Except.ok ()) :
    execute_action ext o "reboot_worker" params =
      match extract_string params "worker_id" with
      | Except.error e => ⟨Except.error e, ext, []⟩
      | Except.ok worker_id =>
        let out := reboot_worker ext o worker_id (region_arg params)
        ⟨out.res, ext, out.trace⟩ := by
  unfold execute_action; rw [hr]; rfl

theorem execute_set_worker_metadata (ext : AwsExtension) (o : Oracle) (params : Params)
    (hr : o.runtime_build = Except.ok ()) :
    execute_action ext o "set_worker_metadata" params =
      match extract_string params "worker_id" with
      | Except.error e => ⟨Except.error e, ext, []⟩
      | Except.ok worker_id =>
        match extract_string params "key" with
        | Except.error e => ⟨Except.error e, ext, []⟩
        | Except.ok key =>
          match extract_string params "value" with
          | Except.error e => ⟨Except.error e, ext, []⟩
          | Except.ok value =>
            let out := set_worker_metadata ext o worker_id key value (region_arg params)
            ⟨out.res, ext, out.trace⟩ := by
  unfold execute_action; rw [hr]; rfl

theorem execute_snapshot_volume (ext : AwsExtension) (o : Oracle) (params : Params)
    (hr : o.runtime_build = Except.ok ()) :
    execute_action ext o "snapshot_volume" params =
      match extract_string params "source_volume_id" with
      | Except.error e => ⟨Except.error e, ext, []⟩
      | Except.ok source_volume_id =>
        match extract_string params "snapshot_name" with
        | Except.error e => ⟨Except.error e, ext, []⟩
        | Except.ok snapshot_name =>
          let out := snapshot_volume ext o source_volume_id snapshot_name (region_arg params)
          ⟨out.res, ext, out.trace⟩ := by
  unfold execute_action; rw [hr]; rfl

/-! ### Lemmas about the validation helpers and `get_client` -/

theorem extract_string_bad (params : Params) (k : String)
    (h : hasStrParam params k = false) : ∃ e, extract_string params k = Except.error e := by
  unfold hasStrParam at h
  unfold extract_string
  rcases hl : params.lookup k with - | v
  · exact ⟨_, rfl⟩
  · rw [hl] at h
    cases v <;> first | exact ⟨_, rfl⟩ | exact absurd h (by simp)

theorem extract_int_bad (params : Params) (k : String)
    (h : hasIntParam params k = false) : ∃ e, extract_int params k = Except.error e := by
  unfold hasIntParam at h
  unfold extract_int
  rcases hl : params.lookup k with - | v
  · exact ⟨_, rfl⟩
  · rw [hl] at h
    cases v <;> first | exact ⟨_, rfl⟩ | exact absurd h (by simp)

theorem extract_string_ok (params : Params) (k s : String)
    (h : params.lookup k = some (Value.str s)) : extract_string params k = Except.ok s := by
  unfold extract_string; rw [h]

theorem extract_int_ok (params : Params) (k : String) (n : Int)
    (h : params.lookup k = some (Value.num n)) : extract_int params k = Except.ok n := by
  unfold extract_int; rw [h]

theorem extract_string_opt_none (params : Params) (k : String)
    (h : params.lookup k = none) : extract_string_opt params k = Except.ok none := by
  unfold extract_string_opt; rw [h]

theorem get_client_cached (self : AwsExtension) (o : Oracle) (r : Option String) (c : Client)
    (h : self.ec2_client = some c) : get_client self o r = (Except.ok c, self) := by
  unfold get_client; rw [h]

theorem get_client_fresh (self : AwsExtension) (o : Oracle) (r : Option String)
    (h : self.ec2_client = none) :
    get_client self o r =
      (Except.ok (o.build_client (r.getD "us-east-1")),
       { self with ec2_client := some (o.build_client (r.getD "us-east-1")) }) := by
  unfold get_client; rw [h]

/-! ### Trace lemmas: each action method issues exactly one SDK request,
built from its arguments -/

theorem list_workers_trace (self : AwsExtension) (o : Oracle) (region : Option String) :
    (list_workers self o region).trace = [SdkRequest.describeInstances []] := by
  unfold list_workers get_client
  cases self.ec2_client <;> dsimp only <;> (repeat' split) <;> rfl

theorem create_worker_trace (self : AwsExtension) (o : Oracle)
    (worker_name instance_type ami : String) (region : Option String) :
    (create_worker self o worker_name instance_type ami region).trace =
      [SdkRequest.runInstances
        { image_id := ami
          instance_type := instance_type_of_string instance_type
          min_count := 1
          max_count := 1
          tag_specifications :=
            [{ resource_type := ResourceType.Instance
               tags := [{ key := some "Name", value := some worker_name }] }] }] := by
  unfold create_worker get_client
  cases self.ec2_client <;> dsimp only <;> (repeat' split) <;> rfl

theorem delete_worker_trace (self : AwsExtension) (o : Oracle) (worker_id : String)
    (region : Option String) :
    (delete_worker self o worker_id region).trace = [SdkRequest.terminateInstances [worker_id]] := by
  unfold delete_worker get_client
  cases self.ec2_client <;> dsimp only <;> (repeat' split) <;> rfl

theorem get_worker_trace (self : AwsExtension) (o : Oracle) (worker_id : String)
    (region : Option String) :
    (get_worker self o worker_id region).trace = [SdkRequest.describeInstances [worker_id]] := by
  unfold get_worker get_client
  cases self.ec2_client <;> dsimp only <;> (repeat' split) <;> rfl

theorem has_worker_trace (self : AwsExtension) (o : Oracle) (worker_id : String)
    (region : Option String) :
    (has_worker self o worker_id region).trace = [SdkRequest.describeInstances [worker_id]] := by
  unfold has_worker get_client
  cases self.ec2_client <;> dsimp only <;> (repeat' split) <;> rfl

theorem start_worker_trace (self : AwsExtension) (o : Oracle) (worker_id : String)
    (region : Option String) :
    (start_worker self o worker_id region).trace = [SdkRequest.startInstances [worker_id]] := by
  unfold start_worker get_client
  cases self.ec2_client <;> dsimp only <;> (repeat' split) <;> rfl

theorem get_volumes_trace (self : AwsExtension) (o : Oracle) (region : Option String) :
    (get_volumes self o region).trace = [SdkRequest.describeVolumes []] := by
  unfold get_volumes get_client
  cases self.ec2_client <;> dsimp only <;> (repeat' split) <;> rfl

theorem has_volume_trace (self : AwsExtension) (o : Oracle) (volume_id : String)
    (region : Option String) :
    (has_volume self o volume_id region).trace = [SdkRequest.describeVolumes [volume_id]] := by
  unfold has_volume get_client
  cases self.ec2_client <;> dsimp only <;> (repeat' split) <;> rfl

theorem create_volume_trace (self : AwsExtension) (o : Oracle) (size_gb : Int)
    (availability_zone volume_type : String) (region : Option String) :
    (create_volume self o size_gb availability_zone volume_type region).trace =
      [SdkRequest.createVolume
        { availability_zone := availability_zone
          size := i32wrap size_gb
          volume_type := volume_type }] := by
  unfold create_volume get_client
  cases self.ec2_client <;> dsimp only <;> (repeat' split) <;> rfl

theorem delete_volume_trace (self : AwsExtension) (o : Oracle) (volume_id : String)
    (region : Option String) :
    (delete_volume self o volume_id region).trace = [SdkRequest.deleteVolume volume_id] := by
  unfold delete_volume get_client
  cases self.ec2_client <;> dsimp only <;> (repeat' split) <;> rfl

theorem attach_volume_trace (self : AwsExtension) (o : Oracle)
    (worker_id volume_id device_name : String) (region : Option String) :
    (attach_volume self o worker_id volume_id device_name region).trace =
      [SdkRequest.attachVolume
        { instance_id := worker_id, volume_id := volume_id, device := device_name }] := by
  unfold attach_volume get_client
  cases self.ec2_client <;> dsimp only <;> (repeat' split) <;> rfl

theorem detach_volume_trace (self : AwsExtension) (o : Oracle) (volume_id : String)
    (region : Option String) :
    (detach_volume self o volume_id region).trace = [SdkRequest.detachVolume volume_id] := by
  unfold detach_volume get_client
  cases self.ec2_client <;> dsimp only <;> (repeat' split) <;> rfl

theorem create_snapshot_trace (self : AwsExtension) (o : Oracle)
    (volume_id snapshot_name : String) (region : Option String) :
    (create_snapshot self o volume_id snapshot_name region).trace =
      [SdkRequest.createSnapshot
        { volume_id := volume_id
          description := "Snapshot of " ++ volume_id
          tag_specifications :=
            [{ resource_type := ResourceType.Snapshot
               tags := [{ key := some "Name", value := some snapshot_name }] }] }] := by
  unfold create_snapshot get_client
  cases self.ec2_client <;> dsimp only <;> (repeat' split) <;> rfl

theorem delete_snapshot_trace (self : AwsExtension) (o : Oracle) (snapshot_id : String)
    (region : Option String) :
    (delete_snapshot self o snapshot_id region).trace =
      [SdkRequest.deleteSnapshot snapshot_id] := by
  unfold delete_snapshot get_client
  cases self.ec2_client <;> dsimp only <;> (repeat' split) <;> rfl

theorem has_snapshot_trace (self : AwsExtension) (o : Oracle) (snapshot_id : String)
    (region : Option String) :
    (has_snapshot self o snapshot_id region).trace =
      [SdkRequest.describeSnapshots [snapshot_id]] := by
  unfold has_snapshot get_client
  cases self.ec2_client <;> dsimp only <;> (repeat' split) <;> rfl

theorem reboot_worker_trace (self : AwsExtension) (o : Oracle) (worker_id : String)
    (region : Option String) :
    (reboot_worker self o worker_id region).trace = [SdkRequest.rebootInstances [worker_id]] := by
  unfold reboot_worker get_client
  cases self.ec2_client <;> dsimp only <;> (repeat' split) <;> rfl

theorem set_worker_metadata_trace (self : AwsExtension) (o : Oracle)
    (worker_id key value : String) (region : Option String) :
    (set_worker_metadata self o worker_id key value region).trace =
      [SdkRequest.createTags [worker_id] [{ key := some key, value := some value }]] := by
  unfold set_worker_metadata get_client
  cases self.ec2_client <;> dsimp only <;> (repeat' split) <;> rfl

theorem snapshot_volume_trace (self : AwsExtension) (o : Oracle)
    (source_volume_id snapshot_name : String) (region : Option String) :
    (snapshot_volume self o source_volume_id snapshot_name region).trace =
      [SdkRequest.createSnapshot
        { volume_id := source_volume_id
          description := "Snapshot of " ++ source_volume_id
          tag_specifications :=
            [{ resource_type := ResourceType.Snapshot
               tags := [{ key := some "Name", value := some snapshot_name }] }] }] := by
  unfold snapshot_volume create_snapshot get_client
  cases self.ec2_client <;> dsimp only <;> (repeat' split) <;> rfl

/-- Dispatch at an action name outside the catalog falls through to the
final `Err` arm. -/
theorem execute_not_found (ext : AwsExtension) (o : Oracle) (params : Params) (s : String)
    (hr : o.runtime_build = Except.ok ())
    (h1 : s ≠ "test_install") (h2 : s ≠ "list_workers") (h3 : s ≠ "create_worker")
    (h4 : s ≠ "delete_worker") (h5 : s ≠ "get_worker") (h6 : s ≠ "has_worker")
    (h7 : s ≠ "start_worker") (h8 : s ≠ "get_volumes") (h9 : s ≠ "has_volume")
    (h10 : s ≠ "create_volume") (h11 : s ≠ "delete_volume") (h12 : s ≠ "attach_volume")
    (h13 : s ≠ "detach_volume") (h14 : s ≠ "create_snapshot") (h15 : s ≠ "delete_snapshot")
    (h16 : s ≠ "has_snapshot") (h17 : s ≠ "reboot_worker") (h18 : s ≠ "set_worker_metadata")
    (h19 : s ≠ "snapshot_volume") :
    execute_action ext o s params =
      ⟨Except.error ("Action " ++ s ++ " not found"), ext, []⟩ := by
  unfold execute_action
  rw [hr]
  dsimp only
  simp only [h1, h2, h3, h4, h5, h6, h7, h8, h9, h10, h11, h12, h13, h14, h15, h16, h17, h18,
    h19, if_false]

/-- The state component of every dispatch outcome is the original `ext`:
`execute_action` takes `&self` and runs the arm on a clone. -/
theorem execute_action_state (ext : AwsExtension) (o : Oracle) (action : String)
    (params : Params) : (execute_action ext o action params).state = ext := by
  rcases hr : o.runtime_build with e | u
  · rw [execute_runtime_error ext o action params e hr]
  · have hr' : o.runtime_build = Except.ok () := hr
    by_cases h1 : action = "test_install"
    · subst h1; rw [execute_test_install ext o params hr']
    by_cases h2 : action = "list_workers"
    · subst h2; rw [execute_list_workers ext o params hr']
    by_cases h3 : action = "create_worker"
    · subst h3; rw [execute_create_worker ext o params hr']
      rcases extract_string params "worker_name" with e | w
      · rfl
      rcases extract_string_opt params "instance_type" with e | i
      · rfl
      rcases extract_string_opt params "ami" with e | a <;> rfl
    by_cases h4 : action = "delete_worker"
    · subst h4; rw [execute_delete_worker ext o params hr']
      rcases extract_string params "worker_id" with e | w <;> rfl
    by_cases h5 : action = "get_worker"
    · subst h5; rw [execute_get_worker ext o params hr']
      rcases extract_string params "worker_id" with e | w <;> rfl
    by_cases h6 : action = "has_worker"
    · subst h6; rw [execute_has_worker ext o params hr']
      rcases extract_string params "worker_id" with e | w <;> rfl
    by_cases h7 : action = "start_worker"
    · subst h7; rw [execute_start_worker ext o params hr']
      rcases extract_string params "worker_id" with e | w <;> rfl
    by_cases h8 : action = "get_volumes"
    · subst h8; rw [execute_get_volumes ext o params hr']
    by_cases h9 : action = "has_volume"
    · subst h9; rw [execute_has_volume ext o params hr']
      rcases extract_string params "volume_id" with e | w <;> rfl
    by_cases h10 : action = "create_volume"
    · subst h10; rw [execute_create_volume ext o params hr']
      rcases extract_int params "size_gb" with e | n
      · rfl
      rcases extract_string params "availability_zone" with e | z
      · rfl
      rcases extract_string_opt params "volume_type" with e | t <;> rfl
    by_cases h11 : action = "delete_volume"
    · subst h11; rw [execute_delete_volume ext o params hr']
      rcases extract_string params "volume_id" with e | w <;> rfl
    by_cases h12 : action = "attach_volume"
    · subst h12; rw [execute_attach_volume ext o params hr']
      rcases extract_string params "worker_id" with e | w
      · rfl
      rcases extract_string params "volume_id" with e | v
      · rfl
      rcases extract_string params "device_name" with e | d <;> rfl
    by_cases h13 : action = "detach_volume"
    · subst h13; rw [execute_detach_volume ext o params hr']
      rcases extract_string params "volume_id" with e | w <;> rfl
    by_cases h14 : action = "create_snapshot"
    · subst h14; rw [execute_create_snapshot ext o params hr']
      rcases extract_string params "volume_id" with e | w
      · rfl
      rcases extract_string params "snapshot_name" with e | n <;> rfl
    by_cases h15 : action = "delete_snapshot"
    · subst h15; rw [execute_delete_snapshot ext o params hr']
      rcases extract_string params "snapshot_id" with e | w <;> rfl
    by_cases h16 : action = "has_snapshot"
    · subst h16; rw [execute_has_snapshot ext o params hr']
      rcases extract_string params "snapshot_id" with e | w <;> rfl
    by_cases h17 : action = "reboot_worker"
    · subst h17; rw [execute_reboot_worker ext o params hr']
      rcases extract_string params "worker_id" with e | w <;> rfl
    by_cases h18 : action = "set_worker_metadata"
    · subst h18; rw [execute_set_worker_metadata ext o params hr']
      rcases extract_string params "worker_id" with e | w
      · rfl
      rcases extract_string params "key" with e | k
      · rfl
      rcases extract_string params "value" with e | v <;> rfl
    by_cases h19 : action = "snapshot_volume"
    · subst h19; rw [execute_snapshot_volume ext o params hr']
      rcases extract_string params "source_volume_id" with e | w
      · rfl
      rcases extract_string params "snapshot_name" with e | n <;> rfl
    rw [execute_not_found ext o params action hr' h1 h2 h3 h4 h5 h6 h7 h8 h9 h10 h11 h12 h13
      h14 h15 h16 h17 h18 h19]

/-- An action name outside the catalog has no definition. -/
theorem gad_not_found (s : String)
    (h1 : s ≠ "test_install") (h2 : s ≠ "list_workers") (h3 : s ≠ "create_worker")
    (h4 : s ≠ "delete_worker") (h5 : s ≠ "get_worker") (h6 : s ≠ "has_worker")
    (h7 : s ≠ "start_worker") (h8 : s ≠ "get_volumes") (h9 : s ≠ "has_volume")
    (h10 : s ≠ "create_volume") (h11 : s ≠ "delete_volume") (h12 : s ≠ "attach_volume")
    (h13 : s ≠ "detach_volume") (h14 : s ≠ "create_snapshot") (h15 : s ≠ "delete_snapshot")
    (h16 : s ≠ "has_snapshot") (h17 : s ≠ "reboot_worker") (h18 : s ≠ "set_worker_metadata")
    (h19 : s ≠ "snapshot_volume") :
    get_action_definition AwsExtension.new s = none := by
  unfold get_action_definition
  simp only [h1, h2, h3, h4, h5, h6, h7, h8, h9, h10, h11, h12, h13, h14, h15, h16, h17, h18,
    h19, if_false]

/-! ### Claim theorems -/

/-- C1: the extension exposes a fixed catalog: `name` is "ec2",
`provider_type` is "cloud", `list_actions` is the fixed 19-element list,
`get_action_definition` is `some` exactly on that list, and `execute_action`
on any name outside the list returns `Err`. -/
theorem c1_fixed_catalog :
    AwsExtension.new.name = "ec2" ∧
    AwsExtension.new.provider_type = "cloud" ∧
    list_actions AwsExtension.new =
      ["test_install", "list_workers", "create_worker", "delete_worker", "get_worker",
       "has_worker", "start_worker", "get_volumes", "has_volume", "create_volume",
       "delete_volume", "attach_volume", "detach_volume", "create_snapshot",
       "delete_snapshot", "has_snapshot", "reboot_worker", "set_worker_metadata",
       "snapshot_volume"] ∧
    (∀ s, (get_action_definition AwsExtension.new s).isSome ↔
        s ∈ list_actions AwsExtension.new) ∧
    (∀ (s : String) (params : Params) (o : Oracle), s ∉ list_actions AwsExtension.new →
        (execute_action AwsExtension.new o s params).res.isOk = false) := by
  refine ⟨rfl, rfl, rfl, ?_, ?_⟩
  · intro s
    by_cases h1 : s = "test_install"
    · subst h1; decide
    by_cases h2 : s = "list_workers"
    · subst h2; decide
    by_cases h3 : s = "create_worker"
    · subst h3; decide
    by_cases h4 : s = "delete_worker"
    · subst h4; decide
    by_cases h5 : s = "get_worker"
    · subst h5; decide
    by_cases h6 : s = "has_worker"
    · subst h6; decide
    by_cases h7 : s = "start_worker"
    · subst h7; decide
    by_cases h8 : s = "get_volumes"
    · subst h8; decide
    by_cases h9 : s = "has_volume"
    · subst h9; decide
    by_cases h10 : s = "create_volume"
    · subst h10; decide
    by_cases h11 : s = "delete_volume"
    · subst h11; decide
    by_cases h12 : s = "attach_volume"
    · subst h12; decide
    by_cases h13 : s = "detach_volume"
    · subst h13; decide
    by_cases h14 : s = "create_snapshot"
    · subst h14; decide
    by_cases h15 : s = "delete_snapshot"
    · subst h15; decide
    by_cases h16 : s = "has_snapshot"
    · subst h16; decide
    by_cases h17 : s = "reboot_worker"
    · subst h17; decide
    by_cases h18 : s = "set_worker_metadata"
    · subst h18; decide
    by_cases h19 : s = "snapshot_volume"
    · subst h19; decide
    rw [gad_not_found s h1 h2 h3 h4 h5 h6 h7 h8 h9 h10 h11 h12 h13 h14 h15 h16 h17 h18 h19]
    simp [list_actions, h1, h2, h3, h4, h5, h6, h7, h8, h9, h10, h11, h12, h13, h14, h15,
      h16, h17, h18, h19]
  · intro s params o h
    simp only [list_actions, List.mem_cons, List.mem_singleton, not_or] at h
    obtain ⟨h1, h2, h3, h4, h5, h6, h7, h8, h9, h10, h11, h12, h13, h14, h15, h16, h17, h18,
      h19, -⟩ := h
    rcases hr : o.runtime_build with e | u
    · rw [execute_runtime_error _ o s params e hr]; rfl
    · have hr' : o.runtime_build = Except.ok () := hr
      rw [execute_not_found _ o params s hr' h1 h2 h3 h4 h5 h6 h7 h8 h9 h10 h11 h12 h13 h14
        h15 h16 h17 h18 h19]
      rfl

/-- C1 witness: at the concrete name "bogus" (not in the catalog) the
definition lookup is `none` and the dispatch errs. -/
theorem c1_fixed_catalog_witness :
    (("bogus" : String) ∉ list_actions AwsExtension.new) ∧
    ¬ (get_action_definition AwsExtension.new "bogus").isSome ∧
    (execute_action AwsExtension.new defaultOracle "bogus" []).res.isOk = false := by
  have hmem : ("bogus" : String) ∉ list_actions AwsExtension.new := by decide
  refine ⟨hmem, ?_, c1_fixed_catalog.2.2.2.2 "bogus" [] defaultOracle hmem⟩
  rw [(c1_fixed_catalog.2.2.2.1 "bogus").not]
  exact hmem

/-- C2: `execute_action` takes the extension by shared reference and
dispatches on a freshly constructed clone: the original extension — all
four fields, including the memoized `ec2_client` — is what the caller still
holds afterwards, so a client cached during one dispatch is never visible
to a subsequent `execute_action` on the same extension value. -/
theorem c2_execute_action_frame (ext : AwsExtension) (o : Oracle) (action : String)
    (params : Params) :
    (execute_action ext o action params).state = ext ∧
    (∀ (o2 : Oracle) (action2 : String) (params2 : Params),
      execute_action (execute_action ext o action params).state o2 action2 params2 =
        execute_action ext o2 action2 params2) := by
  refine ⟨execute_action_state ext o action params, fun o2 action2 params2 => ?_⟩
  rw [execute_action_state ext o action params]

/-- C3: `get_client` is lazy-initialize-and-cache: with a cached client it
returns that client unchanged regardless of the region argument; with no
cached client it stores the newly built client, and every later call on the
resulting state returns that same single memoized handle. -/
theorem c3_get_client_memoization :
    (∀ (self : AwsExtension) (o : Oracle) (r : Option String) (c : Client),
      self.ec2_client = some c → get_client self o r = (Except.ok c, self)) ∧
    (∀ (self : AwsExtension) (o : Oracle) (r : Option String),
      self.ec2_client = none →
        ∃ c, get_client self o r = (Except.ok c, { self with ec2_client := some c }) ∧
          ∀ (o2 : Oracle) (r2 : Option String),
            get_client { self with ec2_client := some c } o2 r2 =
              (Except.ok c, { self with ec2_client := some c })) := by
  refine ⟨get_client_cached, fun self o r h => ?_⟩
  refine ⟨o.build_client (r.getD "us-east-1"), get_client_fresh self o r h, fun o2 r2 => ?_⟩
  exact get_client_cached _ o2 r2 _ rfl

/-- C3 witness: a fresh extension caches on first use, and a cached handle
(7) is returned as such whatever region is requested. -/
theorem c3_get_client_memoization_witness :
    (∃ c, get_client AwsExtension.new defaultOracle none =
        (Except.ok c, { AwsExtension.new with ec2_client := some c }) ∧
      ∀ (o2 : Oracle) (r2 : Option String),
        get_client { AwsExtension.new with ec2_client := some c } o2 r2 =
          (Except.ok c, { AwsExtension.new with ec2_client := some c })) ∧
    get_client { AwsExtension.new with ec2_client := some 7 } defaultOracle (some "eu-west-1") =
      (Except.ok 7, { AwsExtension.new with ec2_client := some 7 }) := by
  exact ⟨c3_get_client_memoization.2 AwsExtension.new defaultOracle none rfl,
    c3_get_client_memoization.1 _ defaultOracle _ 7 rfl⟩

/-! ### Fold characterizations of the two response normalizers -/

theorem parse_instances_fold_inner (l : List Instance) (acc : List Value) :
    l.foldl
      (fun instances inst =>
        match inst.instance_id with
        | some instance_id =>
          let state := (inst.state.bind InstanceState.name).getD "unknown"
          let name := get_name_from_tags inst.tags
          instances ++
            [Value.obj
              [("id", Value.str instance_id),
               ("name", Value.str name),
               ("state", Value.str state),
               ("instance_type", Value.str (inst.instance_type.getD "unknown")),
               ("public_ip", optStr inst.public_ip_address),
               ("private_ip", optStr inst.private_ip_address)]]
        | none => instances)
      acc =
    acc ++ l.filterMap (fun inst =>
      inst.instance_id.map (fun instance_id =>
        Value.obj
          [("id", Value.str instance_id),
           ("name", Value.str (get_name_from_tags inst.tags)),
           ("state", Value.str ((inst.state.bind InstanceState.name).getD "unknown")),
           ("instance_type", Value.str (inst.instance_type.getD "unknown")),
           ("public_ip", optStr inst.public_ip_address),
           ("private_ip", optStr inst.private_ip_address)])) := by
  induction l generalizing acc with
  | nil => simp
  | cons x xs ih =>
    rcases hx : x.instance_id with - | iid <;>
      simp [List.foldl_cons, List.filterMap_cons, hx, ih]

theorem parse_instances_fold_outer (rs : List Reservation) (acc : List Value) :
    rs.foldl
      (fun instances reservation =>
        reservation.instances.foldl
          (fun instances inst =>
            match inst.instance_id with
            | some instance_id =>
              let state := (inst.state.bind InstanceState.name).getD "unknown"
              let name := get_name_from_tags inst.tags
              instances ++
                [Value.obj
                  [("id", Value.str instance_id),
                   ("name", Value.str name),
                   ("state", Value.str state),
                   ("instance_type", Value.str (inst.instance_type.getD "unknown")),
                   ("public_ip", optStr inst.public_ip_address),
                   ("private_ip", optStr inst.private_ip_address)]]
            | none => instances)
          instances)
      acc =
    acc ++ ((rs.map Reservation.instances).flatten).filterMap (fun inst =>
      inst.instance_id.map (fun instance_id =>
        Value.obj
          [("id", Value.str instance_id),
           ("name", Value.str (get_name_from_tags inst.tags)),
           ("state", Value.str ((inst.state.bind InstanceState.name).getD "unknown")),
           ("instance_type", Value.str (inst.instance_type.getD "unknown")),
           ("public_ip", optStr inst.public_ip_address),
           ("private_ip", optStr inst.private_ip_address)])) := by
  induction rs generalizing acc with
  | nil => simp
  | cons r rs ih =>
    rw [List.foldl_cons, parse_instances_fold_inner r.instances acc, ih]
    simp [List.filterMap_append, List.append_assoc]

theorem parse_volumes_fold (l : List Volume) (acc : List Value) :
    l.foldl
      (fun volumes volume =>
        match volume.volume_id with
        | some volume_id =>
          let attached_to := volume.attachments.head?.bind Attachment.instance_id
          volumes ++
            [Value.obj
              [("id", Value.str volume_id),
               ("path", Value.str volume_id),
               ("size_mb", Value.num (i32wrap (volume.size.getD 0 * 1024))),
               ("state", Value.str (volume.state.getD "unknown")),
               ("availability_zone", Value.str (volume.availability_zone.getD "unknown")),
               ("attached_to", optStr attached_to)]]
        | none => volumes)
      acc =
    acc ++ l.filterMap (fun volume =>
      volume.volume_id.map (fun volume_id =>
        Value.obj
          [("id", Value.str volume_id),
           ("path", Value.str volume_id),
           ("size_mb", Value.num (i32wrap (volume.size.getD 0 * 1024))),
           ("state", Value.str (volume.state.getD "unknown")),
           ("availability_zone", Value.str (volume.availability_zone.getD "unknown")),
           ("attached_to", optStr (volume.attachments.head?.bind Attachment.instance_id))])) := by
  induction l generalizing acc with
  | nil => simp
  | cons x xs ih =>
    rcases hx : x.volume_id with - | vid <;>
      simp [List.foldl_cons, List.filterMap_cons, hx, ih]

/-- C7: `parse_ec2_instances` yields one worker object per instance that
has an `instance_id` — in reservation order, then instance order, instances
without an id omitted — with the fields id, name (from the tags), state and
instance_type (both "unknown" when missing), public_ip and private_ip; and
`list_workers` returns these objects under the key "workers". -/
theorem c7_parse_instances :
    (∀ output : DescribeInstancesOutput,
      parse_ec2_instances output =
        ((output.reservations.map Reservation.instances).flatten).filterMap (fun inst =>
          inst.instance_id.map (fun instance_id =>
            Value.obj
              [("id", Value.str instance_id),
               ("name", Value.str (get_name_from_tags inst.tags)),
               ("state", Value.str ((inst.state.bind InstanceState.name).getD "unknown")),
               ("instance_type", Value.str (inst.instance_type.getD "unknown")),
               ("public_ip", optStr inst.public_ip_address),
               ("private_ip", optStr inst.private_ip_address)]))) ∧
    (∀ (self : AwsExtension) (o : Oracle) (region : Option String)
        (output : DescribeInstancesOutput),
      o.describe_instances [] = Except.ok output →
      (list_workers self o region).res =
        Except.ok (Value.obj [("workers", Value.arr (parse_ec2_instances output))])) := by
  constructor
  · intro output
    obtain ⟨rs⟩ := output
    unfold parse_ec2_instances
    rw [parse_instances_fold_outer rs []]
    rfl
  · intro self o region output h
    unfold list_workers get_client
    cases self.ec2_client <;> (dsimp only; rw [h])

/-- A sample SDK response: two reservations, one holding a named instance
and an id-less instance, the second holding an instance with no tags. -/
def sampleInstancesOutput : DescribeInstancesOutput :=
  { reservations :=
      [{ instances :=
          [{ instance_id := some "i-1", state := some { name := some "running" }
             instance_type := some "t2.micro", public_ip_address := some "3.3.3.3"
             private_ip_address := some "10.0.0.1"
             tags := [{ key := some "Name", value := some "alpha" }], placement := none },
           { instance_id := none, state := none, instance_type := none
             public_ip_address := none, private_ip_address := none, tags := []
             placement := none }] },
       { instances :=
          [{ instance_id := some "i-2", state := none, instance_type := none
             public_ip_address := none, private_ip_address := some "10.0.0.2"
             tags := [], placement := none }] }] }

/-- An environment whose DescribeInstances succeeds with
`sampleInstancesOutput`. -/
def sampleInstancesOracle : Oracle :=
  { defaultOracle with describe_instances := fun _ => Except.ok sampleInstancesOutput }

/-- C7 witness: on the sample response, `list_workers` wraps the two
normalized workers (the id-less instance is dropped) under "workers". -/
theorem c7_parse_instances_witness :
    (list_workers AwsExtension.new sampleInstancesOracle none).res =
      Except.ok (Value.obj
        [("workers", Value.arr (parse_ec2_instances sampleInstancesOutput))]) ∧
    parse_ec2_instances sampleInstancesOutput =
      [Value.obj
        [("id", Value.str "i-1"), ("name", Value.str "alpha"),
         ("state", Value.str "running"), ("instance_type", Value.str "t2.micro"),
         ("public_ip", Value.str "3.3.3.3"), ("private_ip", Value.str "10.0.0.1")],
       Value.obj
        [("id", Value.str "i-2"), ("name", Value.str "unnamed"),
         ("state", Value.str "unknown"), ("instance_type", Value.str "unknown"),
         ("public_ip", Value.null), ("private_ip", Value.str "10.0.0.2")]] :=
  ⟨c7_parse_instances.2 AwsExtension.new sampleInstancesOracle none sampleInstancesOutput rfl,
   rfl⟩

/-- C8: `get_name_from_tags` returns the value of the first tag whose key
is "Name", "unnamed" when there is no such tag or the first one has no
value, and tags after the first "Name" tag never affect the result. -/
theorem c8_name_from_tags :
    (∀ tags : List Tag,
      get_name_from_tags tags =
        (((tags.find? (fun t => t.key == some "Name")).map
            (fun t => t.value.getD "unnamed")).getD "unnamed")) ∧
    (∀ tags extra : List Tag, (∃ t ∈ tags, t.key = some "Name") →
      get_name_from_tags (tags ++ extra) = get_name_from_tags tags) := by
  constructor
  · intro tags
    induction tags with
    | nil => rfl
    | cons t ts ih =>
      by_cases h : t.key = some "Name"
      · simp [get_name_from_tags, List.find?_cons, h]
      · simp [get_name_from_tags, List.find?_cons, h, ih]
  · intro tags extra h
    induction tags with
    | nil => simp at h
    | cons t ts ih =>
      by_cases hk : t.key = some "Name"
      · simp [get_name_from_tags, hk]
      · obtain ⟨u, hu, hku⟩ := h
        rcases List.mem_cons.mp hu with rfl | hu2
        · exact absurd hku hk
        · simp only [List.cons_append, get_name_from_tags, hk, if_false]
          exact ih ⟨u, hu2, hku⟩

/-- C8 witness: the first "Name" tag (value "a") wins, and appending
another "Name" tag does not change the result. -/
theorem c8_name_from_tags_witness :
    get_name_from_tags
        ([{ key := some "Name", value := some "a" }] ++
          [{ key := some "Name", value := some "b" }]) =
      get_name_from_tags [{ key := some "Name", value := some "a" }] ∧
    get_name_from_tags [{ key := some "Name", value := some "a" }] = "a" :=
  ⟨c8_name_from_tags.2 [{ key := some "Name", value := some "a" }]
      [{ key := some "Name", value := some "b" }]
      ⟨{ key := some "Name", value := some "a" }, List.mem_singleton.mpr rfl, rfl⟩,
   rfl⟩

/-- C9 counterexample: the GB-to-MB conversion is 32-bit multiplication:
at size 2097152 GB (a valid `i32`) the emitted `size_mb` is -2147483648,
not 2097152 * 1024 = 2147483648, so "size_mb equals the size multiplied by
exactly 1024" fails on this volume. -/
theorem c9_size_mb_counterexample :
    parse_ec2_volumes
        { volumes :=
            [{ volume_id := some "vol-1", size := some 2097152, state := none
               availability_zone := none, attachments := [] }] } =
      [Value.obj
        [("id", Value.str "vol-1"), ("path", Value.str "vol-1"),
         ("size_mb", Value.num (-2147483648)), ("state", Value.str "unknown"),
         ("availability_zone", Value.str "unknown"), ("attached_to", Value.null)]] ∧
    (-2147483648 : Int) ≠ 2097152 * 1024 :=
  ⟨rfl, by decide⟩

/-- C9 (amended): `parse_ec2_volumes` emits one object per volume that has
a `volume_id` (volumes without an id omitted), with path equal to the id,
size_mb equal to the size in GB (0 when missing) times 1024 computed in
32-bit two's-complement arithmetic — hence equal to size * 1024 exactly
whenever that product fits in an `i32` — state and availability zone
"unknown" when missing, and attached_to the instance id of the first
attachment when one exists and null otherwise. -/
theorem c9_parse_volumes (output : DescribeVolumesOutput) :
    parse_ec2_volumes output =
      output.volumes.filterMap (fun volume =>
        volume.volume_id.map (fun volume_id =>
          Value.obj
            [("id", Value.str volume_id),
             ("path", Value.str volume_id),
             ("size_mb", Value.num (i32wrap (volume.size.getD 0 * 1024))),
             ("state", Value.str (volume.state.getD "unknown")),
             ("availability_zone", Value.str (volume.availability_zone.getD "unknown")),
             ("attached_to", optStr (volume.attachments.head?.bind Attachment.instance_id))])) := by
  obtain ⟨vs⟩ := output
  unfold parse_ec2_volumes
  rw [parse_volumes_fold vs []]
  rfl

/-- C10: `create_worker` maps exactly the eight recognized instance type
strings to their enum values and silently substitutes t2.micro for every
other string; the RunInstances request always carries the mapped value. -/
theorem c10_instance_type_table :
    (instance_type_of_string "t2.micro" = InstanceType.t2micro ∧
     instance_type_of_string "t2.small" = InstanceType.t2small ∧
     instance_type_of_string "t2.medium" = InstanceType.t2medium ∧
     instance_type_of_string "t3.micro" = InstanceType.t3micro ∧
     instance_type_of_string "t3.small" = InstanceType.t3small ∧
     instance_type_of_string "t3.medium" = InstanceType.t3medium ∧
     instance_type_of_string "m5.large" = InstanceType.m5large ∧
     instance_type_of_string "m5.xlarge" = InstanceType.m5xlarge) ∧
    (∀ s : String,
      s ∉ (["t2.micro", "t2.small", "t2.medium", "t3.micro", "t3.small", "t3.medium",
            "m5.large", "m5.xlarge"] : List String) →
      instance_type_of_string s = InstanceType.t2micro) ∧
    (∀ (self : AwsExtension) (o : Oracle) (worker_name s ami : String)
        (region : Option String),
      (create_worker self o worker_name s ami region).trace =
        [SdkRequest.runInstances
          { image_id := ami
            instance_type := instance_type_of_string s
            min_count := 1
            max_count := 1
            tag_specifications :=
              [{ resource_type := ResourceType.Instance
                 tags := [{ key := some "Name", value := some worker_name }] }] }]) := by
  refine ⟨⟨rfl, rfl, rfl, rfl, rfl, rfl, rfl, rfl⟩, ?_, create_worker_trace⟩
  intro s h
  simp only [List.mem_cons, List.mem_singleton, not_or] at h
  obtain ⟨n1, n2, n3, n4, n5, n6, n7, n8, -⟩ := h
  unfold instance_type_of_string
  simp only [n1, n2, n3, n4, n5, n6, n7, n8, if_false]

/-- C10 witness: "m5.24xlarge" is outside the table and is sent as
t2.micro. -/
theorem c10_instance_type_table_witness :
    (("m5.24xlarge" : String) ∉
      (["t2.micro", "t2.small", "t2.medium", "t3.micro", "t3.small", "t3.medium",
        "m5.large", "m5.xlarge"] : List String)) ∧
    instance_type_of_string "m5.24xlarge" = InstanceType.t2micro := by
  have h : ("m5.24xlarge" : String) ∉
      (["t2.micro", "t2.small", "t2.medium", "t3.micro", "t3.small", "t3.medium",
        "m5.large", "m5.xlarge"] : List String) := by decide
  exact ⟨h, c10_instance_type_table.2.1 "m5.24xlarge" h⟩

/-- An environment whose DescribeInstances succeeds with an empty
reservation list. -/
def emptyInstancesOracle : Oracle :=
  { defaultOracle with describe_instances := fun _ => Except.ok { reservations := [] } }

/-- C4 counterexample: "has_worker returns Ok(success, exists:false)
exactly when the describe call fails with a not-found error" is false as an
equivalence: on a successful describe with an empty reservation list,
has_worker also returns Ok(success, exists:false) although no SDK failure
occurred. -/
theorem c4_sniffing_counterexample :
    ¬ (∀ (self : AwsExtension) (o : Oracle) (id : String) (r : Option String),
        (has_worker self o id r).res =
          Except.ok (Value.obj [("success", Value.bool true), ("exists", Value.bool false)]) ↔
        ∃ err, o.describe_instances [id] = Except.error err ∧
          strContains err "InvalidInstanceID.NotFound" = true) := by
  intro hclaim
  obtain ⟨err, herr, -⟩ := (hclaim AwsExtension.new emptyInstancesOracle "i-0" none).mp rfl
  exact Except.noConfusion herr

/-- C4 (amended): each existence check converts the matching not-found SDK
error into a successful negative answer: WHEN THE DESCRIBE CALL FAILS,
has_worker returns Ok(success:true, exists:false) exactly when the error's
debug formatting contains "InvalidInstanceID.NotFound" (has_volume:
"InvalidVolume.NotFound"; has_snapshot: "InvalidSnapshot.NotFound"), and
any failure without the marker makes the operation return Err; on a
successful SDK response the exists flag is true iff the response lists at
least one matching resource (for has_worker: some reservation has a
non-empty instance list). -/
theorem c4_not_found_sniffing (self : AwsExtension) (o : Oracle) (r : Option String) :
    ((∀ id err, o.describe_instances [id] = Except.error err →
        (((has_worker self o id r).res =
            Except.ok (Value.obj
              [("success", Value.bool true), ("exists", Value.bool false)])) ↔
          strContains err "InvalidInstanceID.NotFound" = true) ∧
        (strContains err "InvalidInstanceID.NotFound" = false →
          (has_worker self o id r).res =
            Except.error ("Failed to check if instance exists: " ++ err))) ∧
      (∀ id output, o.describe_instances [id] = Except.ok output →
        (has_worker self o id r).res =
          Except.ok (Value.obj
            [("success", Value.bool true),
             ("exists", Value.bool
                (output.reservations.any fun rv => !rv.instances.isEmpty))]))) ∧
    ((∀ id err, o.describe_volumes [id] = Except.error err →
        (((has_volume self o id r).res =
            Except.ok (Value.obj
              [("success", Value.bool true), ("exists", Value.bool false)])) ↔
          strContains err "InvalidVolume.NotFound" = true) ∧
        (strContains err "InvalidVolume.NotFound" = false →
          (has_volume self o id r).res =
            Except.error ("Failed to check if volume exists: " ++ err))) ∧
      (∀ id output, o.describe_volumes [id] = Except.ok output →
        (has_volume self o id r).res =
          Except.ok (Value.obj
            [("success", Value.bool true),
             ("exists", Value.bool (!output.volumes.isEmpty))]))) ∧
    ((∀ id err, o.describe_snapshots [id] = Except.error err →
        (((has_snapshot self o id r).res =
            Except.ok (Value.obj
              [("success", Value.bool true), ("exists", Value.bool false)])) ↔
          strContains err "InvalidSnapshot.NotFound" = true) ∧
        (strContains err "InvalidSnapshot.NotFound" = false →
          (has_snapshot self o id r).res =
            Except.error ("Failed to check if snapshot exists: " ++ err))) ∧
      (∀ id output, o.describe_snapshots [id] = Except.ok output →
        (has_snapshot self o id r).res =
          Except.ok (Value.obj
            [("success", Value.bool true),
             ("exists", Value.bool (!output.snapshots.isEmpty))]))) := by
  refine ⟨⟨?_, ?_⟩, ⟨?_, ?_⟩, ⟨?_, ?_⟩⟩
  · intro id err h
    unfold has_worker get_client
    cases self.ec2_client <;> (dsimp only; rw [h]) <;>
      cases hsc : strContains err "InvalidInstanceID.NotFound" <;> simp [hsc]
  · intro id output h
    unfold has_worker get_client
    cases self.ec2_client <;> (dsimp only; rw [h])
  · intro id err h
    unfold has_volume get_client
    cases self.ec2_client <;> (dsimp only; rw [h]) <;>
      cases hsc : strContains err "InvalidVolume.NotFound" <;> simp [hsc]
  · intro id output h
    unfold has_volume get_client
    cases self.ec2_client <;> (dsimp only; rw [h])
  · intro id err h
    unfold has_snapshot get_client
    cases self.ec2_client <;> (dsimp only; rw [h]) <;>
      cases hsc : strContains err "InvalidSnapshot.NotFound" <;> simp [hsc]
  · intro id output h
    unfold has_snapshot get_client
    cases self.ec2_client <;> (dsimp only; rw [h])

/-- An environment where DescribeInstances fails with the not-found marker,
DescribeVolumes fails without it, and DescribeSnapshots succeeds with one
snapshot. -/
def notFoundOracle : Oracle :=
  { defaultOracle with
    describe_instances := fun _ =>
      Except.error "InvalidInstanceID.NotFound: the instance does not exist"
    describe_volumes := fun _ => Except.error "boom"
    describe_snapshots := fun _ =>
      Except.ok { snapshots := [{ snapshot_id := some "snap-1" }] } }

/-- C4 witness: the marker error yields a successful negative answer, the
marker-less error propagates as Err, and a successful response reports
existence. -/
theorem c4_not_found_sniffing_witness :
    (has_worker AwsExtension.new notFoundOracle "i-0" none).res =
      Except.ok (Value.obj [("success", Value.bool true), ("exists", Value.bool false)]) ∧
    (has_volume AwsExtension.new notFoundOracle "vol-0" none).res =
      Except.error ("Failed to check if volume exists: " ++ "boom") ∧
    (has_snapshot AwsExtension.new notFoundOracle "snap-1" none).res =
      Except.ok (Value.obj [("success", Value.bool true), ("exists", Value.bool true)]) := by
  refine ⟨?_, ?_, ?_⟩
  · exact ((c4_not_found_sniffing AwsExtension.new notFoundOracle none).1.1 "i-0"
      "InvalidInstanceID.NotFound: the instance does not exist" rfl).1.mpr (by decide)
  · exact ((c4_not_found_sniffing AwsExtension.new notFoundOracle none).2.1.1 "vol-0"
      "boom" rfl).2 (by decide)
  · exact (c4_not_found_sniffing AwsExtension.new notFoundOracle none).2.2.2 "snap-1"
      { snapshots := [{ snapshot_id := some "snap-1" }] } rfl

/-- A dispatch outcome rejected before any SDK work: the result is `Err`,
no SDK request was issued, and the extension is unchanged. -/
def rejected (ext : AwsExtension) (out : MethodOut) : Prop :=
  out.res.isOk = false ∧ out.trace = [] ∧ out.state = ext

theorem rejected_runtime (ext : AwsExtension) (o : Oracle) (action : String)
    (params : Params) (e : String) (hr : o.runtime_build = Except.error e) :
    rejected ext (execute_action ext o action params) := by
  rw [execute_runtime_error ext o action params e hr]
  exact ⟨rfl, rfl, rfl⟩

/-- C5: parameter validation precedes the SDK call: for every action with a
required parameter, if that parameter is absent from the map or of the
wrong type, the dispatch returns `Err` without issuing any SDK request and
with the extension unchanged. The `validation` helpers come from the
external `lib_cpi` crate and are modelled from the spec. -/
theorem c5_validation_before_sdk (ext : AwsExtension) (o : Oracle) (params : Params) :
    (hasStrParam params "worker_name" = false →
      rejected ext (execute_action ext o "create_worker" params)) ∧
    (hasStrParam params "worker_id" = false →
      rejected ext (execute_action ext o "delete_worker" params)) ∧
    (hasStrParam params "worker_id" = false →
      rejected ext (execute_action ext o "get_worker" params)) ∧
    (hasStrParam params "worker_id" = false →
      rejected ext (execute_action ext o "has_worker" params)) ∧
    (hasStrParam params "worker_id" = false →
      rejected ext (execute_action ext o "start_worker" params)) ∧
    (hasStrParam params "worker_id" = false →
      rejected ext (execute_action ext o "reboot_worker" params)) ∧
    (hasStrParam params "volume_id" = false →
      rejected ext (execute_action ext o "has_volume" params)) ∧
    (hasStrParam params "volume_id" = false →
      rejected ext (execute_action ext o "delete_volume" params)) ∧
    (hasStrParam params "volume_id" = false →
      rejected ext (execute_action ext o "detach_volume" params)) ∧
    (hasIntParam params "size_gb" = false →
      rejected ext (execute_action ext o "create_volume" params)) ∧
    (hasStrParam params "availability_zone" = false →
      rejected ext (execute_action ext o "create_volume" params)) ∧
    (hasStrParam params "worker_id" = false →
      rejected ext (execute_action ext o "attach_volume" params)) ∧
    (hasStrParam params "volume_id" = false →
      rejected ext (execute_action ext o "attach_volume" params)) ∧
    (hasStrParam params "device_name" = false →
      rejected ext (execute_action ext o "attach_volume" params)) ∧
    (hasStrParam params "volume_id" = false →
      rejected ext (execute_action ext o "create_snapshot" params)) ∧
    (hasStrParam params "snapshot_name" = false →
      rejected ext (execute_action ext o "create_snapshot" params)) ∧
    (hasStrParam params "snapshot_id" = false →
      rejected ext (execute_action ext o "delete_snapshot" params)) ∧
    (hasStrParam params "snapshot_id" = false →
      rejected ext (execute_action ext o "has_snapshot" params)) ∧
    (hasStrParam params "worker_id" = false →
      rejected ext (execute_action ext o "set_worker_metadata" params)) ∧
    (hasStrParam params "key" = false →
      rejected ext (execute_action ext o "set_worker_metadata" params)) ∧
    (hasStrParam params "value" = false →
      rejected ext (execute_action ext o "set_worker_metadata" params)) ∧
    (hasStrParam params "source_volume_id" = false →
      rejected ext (execute_action ext o "snapshot_volume" params)) ∧
    (hasStrParam params "snapshot_name" = false →
      rejected ext (execute_action ext o "snapshot_volume" params)) := by
  refine ⟨?_, ?_, ?_, ?_, ?_, ?_, ?_, ?_, ?_, ?_, ?_, ?_, ?_, ?_, ?_, ?_, ?_, ?_, ?_, ?_, ?_, ?_, ?_⟩
  · intro hbad
    rcases hr : o.runtime_build with e | u
    · exact rejected_runtime ext o "create_worker" params e hr
    · have hr2 : o.runtime_build = Except.ok () := hr
      rw [execute_create_worker ext o params hr2]
      obtain ⟨e2, he⟩ := extract_string_bad params "worker_name" hbad
      rw [he]
      exact ⟨rfl, rfl, rfl⟩
  · intro hbad
    rcases hr : o.runtime_build with e | u
    · exact rejected_runtime ext o "delete_worker" params e hr
    · have hr2 : o.runtime_build = Except.ok () := hr
      rw [execute_delete_worker ext o params hr2]
      obtain ⟨e2, he⟩ := extract_string_bad params "worker_id" hbad
      rw [he]
      exact ⟨rfl, rfl, rfl⟩
  · intro hbad
    rcases hr : o.runtime_build with e | u
    · exact rejected_runtime ext o "get_worker" params e hr
    · have hr2 : o.runtime_build = Except.ok () := hr
      rw [execute_get_worker ext o params hr2]
      obtain ⟨e2, he⟩ := extract_string_bad params "worker_id" hbad
      rw [he]
      exact ⟨rfl, rfl, rfl⟩
  · intro hbad
    rcases hr : o.runtime_build with e | u
    · exact rejected_runtime ext o "has_worker" params e hr
    · have hr2 : o.runtime_build = Except.ok () := hr
      rw [execute_has_worker ext o params hr2]
      obtain ⟨e2, he⟩ := extract_string_bad params "worker_id" hbad
      rw [he]
      exact ⟨rfl, rfl, rfl⟩
  · intro hbad
    rcases hr : o.runtime_build with e | u
    · exact rejected_runtime ext o "start_worker" params e hr
    · have hr2 : o.runtime_build = Except.ok () := hr
      rw [execute_start_worker ext o params hr2]
      obtain ⟨e2, he⟩ := extract_string_bad params "worker_id" hbad
      rw [he]
      exact ⟨rfl, rfl, rfl⟩
  · intro hbad
    rcases hr : o.runtime_build with e | u
    · exact rejected_runtime ext o "reboot_worker" params e hr
    · have hr2 : o.runtime_build = Except.ok () := hr
      rw [execute_reboot_worker ext o params hr2]
      obtain ⟨e2, he⟩ := extract_string_bad params "worker_id" hbad
      rw [he]
      exact ⟨rfl, rfl, rfl⟩
  · intro hbad
    rcases hr : o.runtime_build with e | u
    · exact rejected_runtime ext o "has_volume" params e hr
    · have hr2 : o.runtime_build = Except.ok () := hr
      rw [execute_has_volume ext o params hr2]
      obtain ⟨e2, he⟩ := extract_string_bad params "volume_id" hbad
      rw [he]
      exact ⟨rfl, rfl, rfl⟩
  · intro hbad
    rcases hr : o.runtime_build with e | u
    · exact rejected_runtime ext o "delete_volume" params e hr
    · have hr2 : o.runtime_build = Except.ok () := hr
      rw [execute_delete_volume ext o params hr2]
      obtain ⟨e2, he⟩ := extract_string_bad params "volume_id" hbad
      rw [he]
      exact ⟨rfl, rfl, rfl⟩
  · intro hbad
    rcases hr : o.runtime_build with e | u
    · exact rejected_runtime ext o "detach_volume" params e hr
    · have hr2 : o.runtime_build = Except.ok () := hr
      rw [execute_detach_volume ext o params hr2]
      obtain ⟨e2, he⟩ := extract_string_bad params "volume_id" hbad
      rw [he]
      exact ⟨rfl, rfl, rfl⟩
  · intro hbad
    rcases hr : o.runtime_build with e | u
    · exact rejected_runtime ext o "create_volume" params e hr
    · have hr2 : o.runtime_build = Except.ok () := hr
      rw [execute_create_volume ext o params hr2]
      obtain ⟨e2, he⟩ := extract_int_bad params "size_gb" hbad
      rw [he]
      exact ⟨rfl, rfl, rfl⟩
  · intro hbad
    rcases hr : o.runtime_build with e | u
    · exact rejected_runtime ext o "create_volume" params e hr
    · have hr2 : o.runtime_build = Except.ok () := hr
      rw [execute_create_volume ext o params hr2]
      obtain ⟨e2, he⟩ := extract_string_bad params "availability_zone" hbad
      rcases hp0 : extract_int params "size_gb" with e3 | v0
      · exact ⟨rfl, rfl, rfl⟩
      · dsimp only
        rw [he]
        exact ⟨rfl, rfl, rfl⟩
  · intro hbad
    rcases hr : o.runtime_build with e | u
    · exact rejected_runtime ext o "attach_volume" params e hr
    · have hr2 : o.runtime_build = Except.ok () := hr
      rw [execute_attach_volume ext o params hr2]
      obtain ⟨e2, he⟩ := extract_string_bad params "worker_id" hbad
      rw [he]
      exact ⟨rfl, rfl, rfl⟩
  · intro hbad
    rcases hr : o.runtime_build with e | u
    · exact rejected_runtime ext o "attach_volume" params e hr
    · have hr2 : o.runtime_build = Except.ok () := hr
      rw [execute_attach_volume ext o params hr2]
      obtain ⟨e2, he⟩ := extract_string_bad params "volume_id" hbad
      rcases hp0 : extract_string params "worker_id" with e3 | v0
      · exact ⟨rfl, rfl, rfl⟩
      · dsimp only
        rw [he]
        exact ⟨rfl, rfl, rfl⟩
  · intro hbad
    rcases hr : o.runtime_build with e | u
    · exact rejected_runtime ext o "attach_volume" params e hr
    · have hr2 : o.runtime_build = Except.ok () := hr
      rw [execute_attach_volume ext o params hr2]
      obtain ⟨e2, he⟩ := extract_string_bad params "device_name" hbad
      rcases hp0 : extract_string params "worker_id" with e3 | v0
      · exact ⟨rfl, rfl, rfl⟩
      · dsimp only
        rcases hp1 : extract_string params "volume_id" with e3 | v1
        · exact ⟨rfl, rfl, rfl⟩
        · dsimp only
          rw [he]
          exact ⟨rfl, rfl, rfl⟩
  · intro hbad
    rcases hr : o.runtime_build with e | u
    · exact rejected_runtime ext o "create_snapshot" params e hr
    · have hr2 : o.runtime_build = Except.ok () := hr
      rw [execute_create_snapshot ext o params hr2]
      obtain ⟨e2, he⟩ := extract_string_bad params "volume_id" hbad
      rw [he]
      exact ⟨rfl, rfl, rfl⟩
  · intro hbad
    rcases hr : o.runtime_build with e | u
    · exact rejected_runtime ext o "create_snapshot" params e hr
    · have hr2 : o.runtime_build = Except.ok () := hr
      rw [execute_create_snapshot ext o params hr2]
      obtain ⟨e2, he⟩ := extract_string_bad params "snapshot_name" hbad
      rcases hp0 : extract_string params "volume_id" with e3 | v0
      · exact ⟨rfl, rfl, rfl⟩
      · dsimp only
        rw [he]
        exact ⟨rfl, rfl, rfl⟩
  · intro hbad
    rcases hr : o.runtime_build with e | u
    · exact rejected_runtime ext o "delete_snapshot" params e hr
    · have hr2 : o.runtime_build = Except.ok () := hr
      rw [execute_delete_snapshot ext o params hr2]
      obtain ⟨e2, he⟩ := extract_string_bad params "snapshot_id" hbad
      rw [he]
      exact ⟨rfl, rfl, rfl⟩
  · intro hbad
    rcases hr : o.runtime_build with e | u
    · exact rejected_runtime ext o "has_snapshot" params e hr
    · have hr2 : o.runtime_build = Except.ok () := hr
      rw [execute_has_snapshot ext o params hr2]
      obtain ⟨e2, he⟩ := extract_string_bad params "snapshot_id" hbad
      rw [he]
      exact ⟨rfl, rfl, rfl⟩
  · intro hbad
    rcases hr : o.runtime_build with e | u
    · exact rejected_runtime ext o "set_worker_metadata" params e hr
    · have hr2 : o.runtime_build = Except.ok () := hr
      rw [execute_set_worker_metadata ext o params hr2]
      obtain ⟨e2, he⟩ := extract_string_bad params "worker_id" hbad
      rw [he]
      exact ⟨rfl, rfl, rfl⟩
  · intro hbad
    rcases hr : o.runtime_build with e | u
    · exact rejected_runtime ext o "set_worker_metadata" params e hr
    · have hr2 : o.runtime_build = Except.ok () := hr
      rw [execute_set_worker_metadata ext o params hr2]
      obtain ⟨e2, he⟩ := extract_string_bad params "key" hbad
      rcases hp0 : extract_string params "worker_id" with e3 | v0
      · exact ⟨rfl, rfl, rfl⟩
      · dsimp only
        rw [he]
        exact ⟨rfl, rfl, rfl⟩
  · intro hbad
    rcases hr : o.runtime_build with e | u
    · exact rejected_runtime ext o "set_worker_metadata" params e hr
    · have hr2 : o.runtime_build = Except.ok () := hr
      rw [execute_set_worker_metadata ext o params hr2]
      obtain ⟨e2, he⟩ := extract_string_bad params "value" hbad
      rcases hp0 : extract_string params "worker_id" with e3 | v0
      · exact ⟨rfl, rfl, rfl⟩
      · dsimp only
        rcases hp1 : extract_string params "key" with e3 | v1
        · exact ⟨rfl, rfl, rfl⟩
        · dsimp only
          rw [he]
          exact ⟨rfl, rfl, rfl⟩
  · intro hbad
    rcases hr : o.runtime_build with e | u
    · exact rejected_runtime ext o "snapshot_volume" params e hr
    · have hr2 : o.runtime_build = Except.ok () := hr
      rw [execute_snapshot_volume ext o params hr2]
      obtain ⟨e2, he⟩ := extract_string_bad params "source_volume_id" hbad
      rw [he]
      exact ⟨rfl, rfl, rfl⟩
  · intro hbad
    rcases hr : o.runtime_build with e | u
    · exact rejected_runtime ext o "snapshot_volume" params e hr
    · have hr2 : o.runtime_build = Except.ok () := hr
      rw [execute_snapshot_volume ext o params hr2]
      obtain ⟨e2, he⟩ := extract_string_bad params "snapshot_name" hbad
      rcases hp0 : extract_string params "source_volume_id" with e3 | v0
      · exact ⟨rfl, rfl, rfl⟩
      · dsimp only
        rw [he]
        exact ⟨rfl, rfl, rfl⟩

/-- C5 witness: with an empty parameter map, a create_worker dispatch is
rejected: `Err`, empty trace, unchanged extension. -/
theorem c5_validation_before_sdk_witness :
    rejected AwsExtension.new
      (execute_action AwsExtension.new defaultOracle "create_worker" []) :=
  (c5_validation_before_sdk AwsExtension.new defaultOracle []).1 rfl

/-- C6 counterexample: parameter values are NOT always forwarded unchanged.
Supplying instance_type "m5.2xlarge" (present, not absent, so no listed
substitution applies) produces exactly the same RunInstances request as
supplying "t2.micro": the unrecognized string is replaced by t2.micro. -/
theorem c6_forwarding_counterexample :
    (execute_action AwsExtension.new defaultOracle "create_worker"
        [("worker_name", Value.str "w"), ("instance_type", Value.str "m5.2xlarge"),
         ("ami", Value.str "ami-1")]).trace =
      [SdkRequest.runInstances
        { image_id := "ami-1"
          instance_type := InstanceType.t2micro
          min_count := 1
          max_count := 1
          tag_specifications :=
            [{ resource_type := ResourceType.Instance
               tags := [{ key := some "Name", value := some "w" }] }] }] ∧
    (execute_action AwsExtension.new defaultOracle "create_worker"
        [("worker_name", Value.str "w"), ("instance_type", Value.str "t2.micro"),
         ("ami", Value.str "ami-1")]).trace =
      [SdkRequest.runInstances
        { image_id := "ami-1"
          instance_type := InstanceType.t2micro
          min_count := 1
          max_count := 1
          tag_specifications :=
            [{ resource_type := ResourceType.Instance
               tags := [{ key := some "Name", value := some "w" }] }] }] ∧
    ("m5.2xlarge" : String) ≠ "t2.micro" :=
  ⟨rfl, rfl, by decide⟩

/-- C6 (amended): default-value substitution: a create_worker dispatch with
instance_type or ami absent uses "t2.micro" and "ami-0c55b159cbfafe1f0", a
create_volume dispatch with volume_type absent uses "gp2", and when region
is absent get_client falls back to "us-east-1"; apart from these
substitutions each action issues exactly one corresponding SDK call and
forwards the supplied parameter values unchanged — except that
create_worker maps the instance_type string through its fixed eight-entry
table (unrecognized strings are sent as t2.micro) and create_volume sends
size_gb cast to a 32-bit signed integer. -/
theorem c6_forwarding :
    (∀ (ext : AwsExtension) (o : Oracle) (params : Params) (w : String),
      o.runtime_build = Except.ok () →
      params.lookup "worker_name" = some (Value.str w) →
      params.lookup "instance_type" = none →
      params.lookup "ami" = none →
      (execute_action ext o "create_worker" params).trace =
        [SdkRequest.runInstances
          { image_id := "ami-0c55b159cbfafe1f0"
            instance_type := InstanceType.t2micro
            min_count := 1
            max_count := 1
            tag_specifications :=
              [{ resource_type := ResourceType.Instance
                 tags := [{ key := some "Name", value := some w }] }] }]) ∧
    (∀ (ext : AwsExtension) (o : Oracle) (params : Params) (n : Int) (az : String),
      o.runtime_build = Except.ok () →
      params.lookup "size_gb" = some (Value.num n) →
      params.lookup "availability_zone" = some (Value.str az) →
      params.lookup "volume_type" = none →
      (execute_action ext o "create_volume" params).trace =
        [SdkRequest.createVolume
          { availability_zone := az, size := i32wrap n, volume_type := "gp2" }]) ∧
    (∀ (self : AwsExtension) (o : Oracle), self.ec2_client = none →
      get_client self o none =
        (Except.ok (o.build_client "us-east-1"),
         { self with ec2_client := some (o.build_client "us-east-1") })) ∧
    (∀ (self : AwsExtension) (o : Oracle) (region : Option String),
      (list_workers self o region).trace = [SdkRequest.describeInstances []]) ∧
    (∀ (self : AwsExtension) (o : Oracle) (worker_name instance_type ami : String)
        (region : Option String),
      (create_worker self o worker_name instance_type ami region).trace =
        [SdkRequest.runInstances
          { image_id := ami
            instance_type := instance_type_of_string instance_type
            min_count := 1
            max_count := 1
            tag_specifications :=
              [{ resource_type := ResourceType.Instance
                 tags := [{ key := some "Name", value := some worker_name }] }] }]) ∧
    (∀ (self : AwsExtension) (o : Oracle) (worker_id : String) (region : Option String),
      (delete_worker self o worker_id region).trace =
        [SdkRequest.terminateInstances [worker_id]]) ∧
    (∀ (self : AwsExtension) (o : Oracle) (worker_id : String) (region : Option String),
      (get_worker self o worker_id region).trace =
        [SdkRequest.describeInstances [worker_id]]) ∧
    (∀ (self : AwsExtension) (o : Oracle) (worker_id : String) (region : Option String),
      (has_worker self o worker_id region).trace =
        [SdkRequest.describeInstances [worker_id]]) ∧
    (∀ (self : AwsExtension) (o : Oracle) (worker_id : String) (region : Option String),
      (start_worker self o worker_id region).trace =
        [SdkRequest.startInstances [worker_id]]) ∧
    (∀ (self : AwsExtension) (o : Oracle) (region : Option String),
      (get_volumes self o region).trace = [SdkRequest.describeVolumes []]) ∧
    (∀ (self : AwsExtension) (o : Oracle) (volume_id : String) (region : Option String),
      (has_volume self o volume_id region).trace =
        [SdkRequest.describeVolumes [volume_id]]) ∧
    (∀ (self : AwsExtension) (o : Oracle) (size_gb : Int)
        (availability_zone volume_type : String) (region : Option String),
      (create_volume self o size_gb availability_zone volume_type region).trace =
        [SdkRequest.createVolume
          { availability_zone := availability_zone
            size := i32wrap size_gb
            volume_type := volume_type }]) ∧
    (∀ (self : AwsExtension) (o : Oracle) (volume_id : String) (region : Option String),
      (delete_volume self o volume_id region).trace = [SdkRequest.deleteVolume volume_id]) ∧
    (∀ (self : AwsExtension) (o : Oracle) (worker_id volume_id device_name : String)
        (region : Option String),
      (attach_volume self o worker_id volume_id device_name region).trace =
        [SdkRequest.attachVolume
          { instance_id := worker_id, volume_id := volume_id, device := device_name }]) ∧
    (∀ (self : AwsExtension) (o : Oracle) (volume_id : String) (region : Option String),
      (detach_volume self o volume_id region).trace = [SdkRequest.detachVolume volume_id]) ∧
    (∀ (self : AwsExtension) (o : Oracle) (volume_id snapshot_name : String)
        (region : Option String),
      (create_snapshot self o volume_id snapshot_name region).trace =
        [SdkRequest.createSnapshot
          { volume_id := volume_id
            description := "Snapshot of " ++ volume_id
            tag_specifications :=
              [{ resource_type := ResourceType.Snapshot
                 tags := [{ key := some "Name", value := some snapshot_name }] }] }]) ∧
    (∀ (self : AwsExtension) (o : Oracle) (snapshot_id : String) (region : Option String),
      (delete_snapshot self o snapshot_id region).trace =
        [SdkRequest.deleteSnapshot snapshot_id]) ∧
    (∀ (self : AwsExtension) (o : Oracle) (snapshot_id : String) (region : Option String),
      (has_snapshot self o snapshot_id region).trace =
        [SdkRequest.describeSnapshots [snapshot_id]]) ∧
    (∀ (self : AwsExtension) (o : Oracle) (worker_id : String) (region : Option String),
      (reboot_worker self o worker_id region).trace =
        [SdkRequest.rebootInstances [worker_id]]) ∧
    (∀ (self : AwsExtension) (o : Oracle) (worker_id key value : String)
        (region : Option String),
      (set_worker_metadata self o worker_id key value region).trace =
        [SdkRequest.createTags [worker_id] [{ key := some key, value := some value }]]) ∧
    (∀ (self : AwsExtension) (o : Oracle) (source_volume_id snapshot_name : String)
        (region : Option String),
      (snapshot_volume self o source_volume_id snapshot_name region).trace =
        [SdkRequest.createSnapshot
          { volume_id := source_volume_id
            description := "Snapshot of " ++ source_volume_id
            tag_specifications :=
              [{ resource_type := ResourceType.Snapshot
                 tags := [{ key := some "Name", value := some snapshot_name }] }] }]) := by
  refine ⟨?_, ?_, ?_, list_workers_trace, create_worker_trace, delete_worker_trace,
    get_worker_trace, has_worker_trace, start_worker_trace, get_volumes_trace,
    has_volume_trace, create_volume_trace, delete_volume_trace, attach_volume_trace,
    detach_volume_trace, create_snapshot_trace, delete_snapshot_trace, has_snapshot_trace,
    reboot_worker_trace, set_worker_metadata_trace, snapshot_volume_trace⟩
  · intro ext o params w hrt hw hit hami
    have hr2 : o.runtime_build = Except.ok () := hrt
    simp only [execute_create_worker ext o params hr2,
      extract_string_ok params "worker_name" w hw,
      extract_string_opt_none params "instance_type" hit,
      extract_string_opt_none params "ami" hami, Option.getD_none]
    rw [create_worker_trace]
    rfl
  · intro ext o params n az hrt hn haz hvt
    have hr2 : o.runtime_build = Except.ok () := hrt
    simp only [execute_create_volume ext o params hr2,
      extract_int_ok params "size_gb" n hn,
      extract_string_ok params "availability_zone" az haz,
      extract_string_opt_none params "volume_type" hvt, Option.getD_none]
    rw [create_volume_trace]
  · intro self o h
    exact get_client_fresh self o none h

/-- C6 witness: a create_worker dispatch with instance_type and ami absent
sends t2.micro and the default AMI. -/
theorem c6_forwarding_witness :
    (execute_action AwsExtension.new defaultOracle "create_worker"
        [("worker_name", Value.str "w")]).trace =
      [SdkRequest.runInstances
        { image_id := "ami-0c55b159cbfafe1f0"
          instance_type := InstanceType.t2micro
          min_count := 1
          max_count := 1
          tag_specifications :=
            [{ resource_type := ResourceType.Instance
               tags := [{ key := some "Name", value := some "w" }] }] }] :=
  c6_forwarding.1 AwsExtension.new defaultOracle [("worker_name", Value.str "w")] "w"
    rfl rfl rfl rfl

end CPIEc2
